import Mathlib

/-!
Verification of the monitoring-cycle engine of `competitor_monitor.py`.

The development shallowly embeds the code of `AICompetitorMonitor` in Lean:

* external effects (HTTP fetch, the two summarization calls, feed parsing,
  the wall clock, the per-process string-hash seed) are packaged in an
  `Env` of oracles, so each operation of the source becomes a pure
  function of `Env`, the historical store, and its arguments;
* the in-memory dict `self.historical_data` becomes an association list
  `Store` with dict lookup/update semantics;
* the functions `scrape_website_content`, `scrape_rss_feeds`,
  `analyze_content_with_ai`, `monitor_target` and `run_monitoring_cycle`
  are translated statement by statement, additionally emitting a trace of
  `Event`s (capability calls, store writes, the commit) so that temporal
  claims about ordering can be stated;
* `content_hash = str(hash(content))` is embedded via the documented
  semantics of the CPython string hasher: SipHash-1-3 over the UTF-8
  bytes, keyed by the per-process randomized seed (`PYTHONHASHSEED`),
  with the empty string hashing to 0 and -1 remapped to -2, the result
  read as a signed 64-bit value;
* the scheduler (`setup_monitoring_schedule` plus the polling loop of
  `main`) becomes a discrete-time step relation on a scheduler state.

Machine integers are `Nat` with explicit reduction `% 2 ^ 64`.
-/

/-! ## CPython string hash: SipHash-1-3 over UTF-8 bytes, per-process seed -/

/-- Rotate a 64-bit value (represented as a `Nat` below `2 ^ 64`) left by `n`. -/
def rotl64 (x n : Nat) : Nat :=
  (((x <<< n) % 2 ^ 64) ||| (x >>> (64 - n)))

/-- One SipHash round on the four 64-bit state words. -/
def sipRound : Nat × Nat × Nat × Nat → Nat × Nat × Nat × Nat
  | (v0, v1, v2, v3) =>
    let v0 := (v0 + v1) % 2 ^ 64
    let v1 := rotl64 v1 13
    let v1 := v1 ^^^ v0
    let v0 := rotl64 v0 32
    let v2 := (v2 + v3) % 2 ^ 64
    let v3 := rotl64 v3 16
    let v3 := v3 ^^^ v2
    let v0 := (v0 + v3) % 2 ^ 64
    let v3 := rotl64 v3 21
    let v3 := v3 ^^^ v0
    let v2 := (v2 + v1) % 2 ^ 64
    let v1 := rotl64 v1 17
    let v1 := v1 ^^^ v2
    let v2 := rotl64 v2 32
    (v0, v1, v2, v3)

/-- Little-endian 64-bit word from up to eight bytes (missing bytes are zero). -/
def le64 (bs : List Nat) : Nat :=
  bs.foldr (fun b acc => b + 256 * acc) 0

/-- Compression loop: absorb each full 8-byte block with one SipHash round,
returning the final state and the trailing incomplete block. -/
def sipBlocksLoop : Nat × Nat × Nat × Nat → List Nat → (Nat × Nat × Nat × Nat) × List Nat
  | st, b0 :: b1 :: b2 :: b3 :: b4 :: b5 :: b6 :: b7 :: rest =>
    let m := le64 [b0, b1, b2, b3, b4, b5, b6, b7]
    let v3 := st.2.2.2 ^^^ m
    let s2 := sipRound (st.1, st.2.1, st.2.2.1, v3)
    let v0 := s2.1 ^^^ m
    sipBlocksLoop (v0, s2.2.1, s2.2.2.1, s2.2.2.2) rest
  | st, rest => (st, rest)

/-- SipHash-1-3 core (before the final reduction to 64 bits). -/
def sipHash13Core (k0 k1 : Nat) (msg : List Nat) : Nat :=
  let v0 := (k0 ^^^ 0x736f6d6570736575) % 2 ^ 64
  let v1 := (k1 ^^^ 0x646f72616e646f6d) % 2 ^ 64
  let v2 := (k0 ^^^ 0x6c7967656e657261) % 2 ^ 64
  let v3 := (k1 ^^^ 0x7465646279746573) % 2 ^ 64
  let s := sipBlocksLoop (v0, v1, v2, v3) msg
  let b := (((msg.length % 256) <<< 56) ||| le64 s.2) % 2 ^ 64
  let s2 := sipRound (s.1.1, s.1.2.1, s.1.2.2.1, s.1.2.2.2 ^^^ b)
  let s3 := sipRound (s2.1 ^^^ b, s2.2.1, s2.2.2.1 ^^^ 0xff, s2.2.2.2)
  let s4 := sipRound s3
  let s5 := sipRound s4
  s5.1 ^^^ s5.2.1 ^^^ s5.2.2.1 ^^^ s5.2.2.2

/-- SipHash-1-3 as a 64-bit value. -/
def sipHash13 (k0 k1 : Nat) (msg : List Nat) : Nat :=
  sipHash13Core k0 k1 msg % 2 ^ 64

/-- UTF-8 encoding of one character, as a list of byte values. -/
def utf8Char (c : Char) : List Nat :=
  let n := c.toNat
  if n < 0x80 then [n]
  else if n < 0x800 then [0xC0 ||| (n >>> 6), 0x80 ||| (n &&& 0x3F)]
  else if n < 0x10000 then
    [0xE0 ||| (n >>> 12), 0x80 ||| ((n >>> 6) &&& 0x3F), 0x80 ||| (n &&& 0x3F)]
  else
    [0xF0 ||| (n >>> 18), 0x80 ||| ((n >>> 12) &&& 0x3F),
     0x80 ||| ((n >>> 6) &&& 0x3F), 0x80 ||| (n &&& 0x3F)]

/-- UTF-8 encoding of a string, as a list of byte values. -/
def utf8Bytes (s : String) : List Nat :=
  (s.data.map utf8Char).flatten

/-- CPython `hash(str)` before sign interpretation: 0 for the empty string,
otherwise SipHash of the UTF-8 bytes under the per-process key `(k0, k1)`. -/
def pyHashRaw (k0 k1 : Nat) (s : String) : Nat :=
  if s = "" then 0 else sipHash13 k0 k1 (utf8Bytes s)

/-- Interpret a 64-bit value as CPython does for hashes: signed
twos-complement, with -1 remapped to -2. -/
def pySignFix (h : Nat) : Int :=
  let signed : Int := if h < 2 ^ 63 then (h : Int) else (h : Int) - 2 ^ 64
  if signed = -1 then -2 else signed

/-- The value of the Python builtin `hash` on a string, given the per-process
hash seed `(k0, k1)`.  The source stores `str(hash(content))` as the digest
of a `HistoricalEntry` (`monitor_target`, lines 362/375). -/
def pyHashStr (k0 k1 : Nat) (s : String) : Int :=
  pySignFix (pyHashRaw k0 k1 s)

/-! ## Data model -/

/-- Target record (`CompetitorTarget` dataclass).  `social_urls` and
`app_store_urls` are never read by the monitoring cycle and are omitted. -/
structure CompetitorTarget where
  name : String
  website_url : String
  changelog_url : Option String
  pricing_url : Option String
  blog_url : Option String
  rss_feeds : Option (List String)
  deriving DecidableEq

/-- One monitoring result (`MonitoringResult` dataclass).  `timestamp` holds
the wall-clock string the `Env` supplies for `datetime.now()`; `metadata`
models the metadata dict (only ever empty, or a single entry_count field
for the blog channel). -/
structure MonitoringResult where
  timestamp : String
  target_name : String
  content_type : String
  url : String
  content_hash : String
  raw_content : String
  ai_summary : String
  detected_changes : List String
  metadata : List (String × Nat)
  deriving DecidableEq

/-- A value of the `historical_data` dict: stored content, its digest, and
the last-updated timestamp. -/
structure HistEntry where
  content : String
  hash : String
  last_updated : String
  deriving DecidableEq

/-- The `historical_data` dict, as an association list keyed by
`f"{target.name}_{channel}"`. -/
def Store := List (String × HistEntry)

instance : DecidableEq Store := by unfold Store; infer_instance

/-- Dict read: `historical_data.get(key, {})`. -/
def lookupStore (st : Store) (k : String) : Option HistEntry :=
  match st with
  | [] => none
  | (k2, v) :: rest => if k2 = k then some v else lookupStore rest k

/-- Dict write: `historical_data[key] = value` (replace or append). -/
def setStore (st : Store) (k : String) (v : HistEntry) : Store :=
  match st with
  | [] => [(k, v)]
  | (k2, v2) :: rest => if k2 = k then (k2, v) :: rest else (k2, v2) :: setStore rest k v

/-- A raw feed entry as `feedparser` delivers it.  `published_parsed = none`
models an entry whose publish date cannot be parsed (the `datetime(*…)` call
raises); `some d` models a date parsing to epoch second `d`.  `summary` is
optional because the source guards the access with `hasattr`. -/
structure RawEntry where
  title : String
  summary : Option String
  link : String
  published_parsed : Option Int
  deriving DecidableEq

/-- A retained feed entry, i.e. one dict of the list `scrape_rss_feeds`
returns. -/
structure FeedEntry where
  title : String
  summary : String
  link : String
  published : Int
  source : String
  deriving DecidableEq

/-- Trace events emitted by the embedded operations: a capability call, a
staging write to the historical store, or the whole-store commit
(`_save_historical_data`). -/
inductive Event where
  | fetchCall (url : String)
  | aiMainCall (message : String)
  | aiChangeCall (message : String)
  | put (key : String) (entry : HistEntry)
  | commit
  deriving DecidableEq

/-- The process environment: every effect of the source as an oracle.
`fetch url` is the outcome of `_scrape_with_requests` (cleaned, truncated
text, or the exception it raised); `aiMain`/`aiChange` are the outcomes of
the two `chat.completions.create` calls as functions of the user message;
`feedParse` is `feedparser.parse`; `seed0`/`seed1` the per-process string
hash key; `now`/`nowT` the wall clock as ISO string and as epoch seconds. -/
structure Env where
  fetch : String → Except String String
  aiMain : String → Except String String
  aiChange : String → Except String String
  feedParse : String → Except String (List RawEntry)
  seed0 : Nat
  seed1 : Nat
  now : String
  nowT : Int

/-! ## ContentFetcher: `scrape_website_content` (lines 148-157) -/

/-- Translation of `scrape_website_content` on the static path the cycle
uses (`use_selenium` defaults to `False`): any exception from the fetch is
caught and yields the empty string. -/
def scrape_website_content (env : Env) (url : String) : String :=
  match env.fetch url with
  | Except.ok text => text
  | Except.error _ => ""

/-! ## Analyzer: `analyze_content_with_ai` (lines 247-352) -/

/-- The channel-specific prompt of `analyze_content_with_ai` (lines 251-305);
the prose of the templates is carried verbatim in structure, with the interior
whitespace of the Python triple-quoted literals collapsed. -/
def buildPrompt (content content_type previous_content : String) : String :=
  let base :=
    if content_type = "changelog" then
      "Analyze this changelog/release notes content and identify: " ++
      "1. New features announced 2. Product updates or improvements " ++
      "3. Pricing changes mentioned 4. Deprecated features 5. Key technical updates " ++
      "Content: " ++ content ++ " Provide a structured summary with clear categories."
    else if content_type = "pricing" then
      "Analyze this pricing page content and identify: " ++
      "1. Current pricing tiers and costs 2. Any pricing changes or updates " ++
      "3. New plans or features 4. Special offers or promotions " ++
      "5. Comparison with competitors mentioned " ++
      "Content: " ++ content ++
      " Focus on extracting specific pricing information and any changes."
    else if content_type = "blog" then
      "Analyze this blog content and identify: " ++
      "1. Product announcements 2. Company updates or news " ++
      "3. New features or capabilities discussed 4. Strategic direction or messaging changes " ++
      "5. Customer success stories or case studies " ++
      "Content: " ++ content ++ " Summarize the key business and product insights."
    else
      "Analyze this " ++ content_type ++ " content and identify: " ++
      "1. Key messaging and positioning 2. New features or products mentioned " ++
      "3. Pricing information 4. Company updates or announcements 5. Competitive positioning " ++
      "Content: " ++ content ++ " Provide insights on business strategy and product updates."
  if previous_content ≠ "" then
    base ++ "\n\nPrevious content for comparison: " ++ previous_content ++
      "\n\nHighlight what has changed between the previous and current content."
  else base

/-- The tier-2 comparison prompt (`change_prompt`, lines 325-332); the source
splices `previous_content[:1000]` and `content[:1000]` into the template, so
the two arguments here are the already-sliced strings. -/
def change_prompt (previousSlice currentSlice : String) : String :=
  "Compare these two versions and list specific changes:\n\nPrevious: " ++
  previousSlice ++ "\nCurrent: " ++ currentSlice ++
  "\n\nList only the specific changes found."

/-- Summary/changes pair returned by the analyzer. -/
structure AnalysisOut where
  ai_summary : String
  detected_changes : List String
  deriving DecidableEq

/-- Translation of `analyze_content_with_ai`.  The Python parameter
`previous_content` defaults to `None`; `None` and `""` are both falsy and the
parameter is only used under truthiness tests and slicing inside a truthy
branch, so `""` faithfully stands for `None`.  The whole body after prompt
construction sits in one `try`, so a failure of either capability call
produces the sentinel `{"ai_summary": "AI analysis failed",
"detected_changes": []}` and nothing ever escapes this boundary.  The second
component is the trace of capability calls made. -/
def analyze_content_with_ai (env : Env) (content content_type previous_content : String) :
    AnalysisOut × List Event :=
  match env.aiMain (buildPrompt content content_type previous_content) with
  | Except.error _ =>
      ({ ai_summary := "AI analysis failed", detected_changes := [] },
       [Event.aiMainCall (buildPrompt content content_type previous_content)])
  | Except.ok ai_summary =>
      if previous_content ≠ "" ∧ previous_content ≠ content then
        match env.aiChange (change_prompt (previous_content.take 1000) (content.take 1000)) with
        | Except.error _ =>
            ({ ai_summary := "AI analysis failed", detected_changes := [] },
             [Event.aiMainCall (buildPrompt content content_type previous_content),
              Event.aiChangeCall (change_prompt (previous_content.take 1000) (content.take 1000))])
        | Except.ok change_text =>
            ({ ai_summary := ai_summary,
               detected_changes := ["Content updated since last monitoring", change_text] },
             [Event.aiMainCall (buildPrompt content content_type previous_content),
              Event.aiChangeCall (change_prompt (previous_content.take 1000) (content.take 1000))])
      else
        ({ ai_summary := ai_summary, detected_changes := [] },
         [Event.aiMainCall (buildPrompt content content_type previous_content)])

/-- Environment used to exhibit the C3 counterexample: the summarization
capability always fails. -/
def envAiDown : Env where
  fetch := fun _ => Except.ok "hello"
  aiMain := fun _ => Except.error "boom"
  aiChange := fun _ => Except.error "boom"
  feedParse := fun _ => Except.ok []
  seed0 := 0
  seed1 := 0
  now := "2024-01-01T00:00:00"
  nowT := 1704067200

/-- Environment used to witness C7: both capability calls succeed. -/
def envAiUp : Env where
  fetch := fun _ => Except.ok "hello"
  aiMain := fun _ => Except.ok "a summary"
  aiChange := fun _ => Except.ok "a diff"
  feedParse := fun _ => Except.ok []
  seed0 := 0
  seed1 := 0
  now := "2024-01-01T00:00:00"
  nowT := 1704067200

/-! ## FeedFetcher: `scrape_rss_feeds` (lines 213-245) -/

/-- The dict appended to `all_entries` for a retained entry: title, summary
(empty when the attribute is missing), link, parsed publish date, and the
source feed URL. -/
def retainEntry (feed_url : String) (e : RawEntry) (d : Int) : FeedEntry :=
  { title := e.title, summary := e.summary.getD "", link := e.link,
    published := d, source := feed_url }

/-- The entries one feed contributes: on a feed-level parse failure the feed
is skipped; an entry whose publish date cannot be parsed raises inside the
per-entry `try` and is skipped; the rest are kept when published within the
last week.  The source recomputes `one_week_ago = datetime.now() -
timedelta(days=7)` per feed; the clock is a single cycle time here. -/
def dateFilter (env : Env) (feed_url : String) (e : RawEntry) :
    Option Int → Option FeedEntry
  | none => none
  | some d =>
      if env.nowT - 7 * 86400 ≤ d then some (retainEntry feed_url e d) else none

def entriesOfFeed (env : Env) (feed_url : String) : List FeedEntry :=
  match env.feedParse feed_url with
  | Except.error _ => []
  | Except.ok entries =>
      entries.filterMap (fun e => dateFilter env feed_url e e.published_parsed)

/-- Translation of `scrape_rss_feeds`: the loop accumulates `all_entries`
across feeds, then returns `sorted(all_entries, key=published,
reverse=True)` — a stable sort by publish time descending. -/
def scrape_rss_feeds (env : Env) (feed_urls : List String) : List FeedEntry :=
  (feed_urls.foldl (fun acc feed_url => acc ++ entriesOfFeed env feed_url) []).mergeSort
    (fun a b => decide (b.published ≤ a.published))

/-! ## CycleOrchestrator: `monitor_target` (lines 354-479) and
`run_monitoring_cycle` (lines 481-498) -/

/-- Python `str(list_of_strings)`, used for the `url` field of the blog
result (`url=str(target.rss_feeds)`). -/
def pyStrList (l : List String) : String :=
  "[" ++ String.intercalate ", " (l.map (fun s => "\x27" ++ s ++ "\x27")) ++ "]"

/-- The repeated website/changelog/pricing block of `monitor_target`: fetch;
if the content is non-empty (Python truthiness), hash it, read the previous
snapshot — the content field stored under the key built from the target
name and the channel, defaulting to the empty string — then analyze, emit
one result, and overwrite the store entry for this key.
If the content is empty, produce nothing and leave the store untouched. -/
def monitor_channel_block (env : Env) (st : Store) (name url content_type : String) :
    List MonitoringResult × Store × List Event :=
  if scrape_website_content env url ≠ "" then
    ([{ timestamp := env.now, target_name := name, content_type := content_type,
        url := url,
        content_hash := toString (pyHashStr env.seed0 env.seed1 (scrape_website_content env url)),
        raw_content := scrape_website_content env url,
        ai_summary := (analyze_content_with_ai env (scrape_website_content env url) content_type
          (((lookupStore st (name ++ "_" ++ content_type)).map HistEntry.content).getD "")).1.ai_summary,
        detected_changes := (analyze_content_with_ai env (scrape_website_content env url) content_type
          (((lookupStore st (name ++ "_" ++ content_type)).map HistEntry.content).getD "")).1.detected_changes,
        metadata := [] }],
     setStore st (name ++ "_" ++ content_type)
       { content := scrape_website_content env url,
         hash := toString (pyHashStr env.seed0 env.seed1 (scrape_website_content env url)),
         last_updated := env.now },
     Event.fetchCall url ::
       ((analyze_content_with_ai env (scrape_website_content env url) content_type
          (((lookupStore st (name ++ "_" ++ content_type)).map HistEntry.content).getD "")).2 ++
        [Event.put (name ++ "_" ++ content_type)
          { content := scrape_website_content env url,
            hash := toString (pyHashStr env.seed0 env.seed1 (scrape_website_content env url)),
            last_updated := env.now }]))
  else
    ([], st, [Event.fetchCall url])

/-- An optional channel (`if target.changelog_url:` / `if target.pricing_url:`):
the block runs only when the URL is present and non-empty (Python
truthiness). -/
def optional_channel_block (env : Env) (st : Store) (name : String) :
    Option String → String → List MonitoringResult × Store × List Event
  | some u, content_type =>
      if u ≠ "" then monitor_channel_block env st name u content_type else ([], st, [])
  | none, _ => ([], st, [])

/-- The blog/RSS block of `monitor_target` (lines 455-477): runs when
`target.rss_feeds` is truthy (present and non-empty); joins the five most
recent retained entries into one text, analyzes it with no previous content
(`previous_content = None`), and produces one result when any entries were
retained.  It never writes the historical store. -/
def blog_payload (env : Env) (name : String) (feeds : List String) :
    List MonitoringResult × List Event :=
  if scrape_rss_feeds env feeds = [] then ([], [])
  else
    ([{ timestamp := env.now, target_name := name, content_type := "blog",
        url := pyStrList feeds,
        content_hash := toString (pyHashStr env.seed0 env.seed1
          (String.intercalate "\n\n" (((scrape_rss_feeds env feeds).take 5).map
            (fun e => "Title: " ++ e.title ++ "\nSummary: " ++ e.summary ++
                      "\nLink: " ++ e.link)))),
        raw_content := String.intercalate "\n\n" (((scrape_rss_feeds env feeds).take 5).map
          (fun e => "Title: " ++ e.title ++ "\nSummary: " ++ e.summary ++
                    "\nLink: " ++ e.link)),
        ai_summary := (analyze_content_with_ai env
          (String.intercalate "\n\n" (((scrape_rss_feeds env feeds).take 5).map
            (fun e => "Title: " ++ e.title ++ "\nSummary: " ++ e.summary ++
                      "\nLink: " ++ e.link))) "blog" "").1.ai_summary,
        detected_changes := (analyze_content_with_ai env
          (String.intercalate "\n\n" (((scrape_rss_feeds env feeds).take 5).map
            (fun e => "Title: " ++ e.title ++ "\nSummary: " ++ e.summary ++
                      "\nLink: " ++ e.link))) "blog" "").1.detected_changes,
        metadata := [("entry_count", (scrape_rss_feeds env feeds).length)] }],
     (analyze_content_with_ai env
        (String.intercalate "\n\n" (((scrape_rss_feeds env feeds).take 5).map
          (fun e => "Title: " ++ e.title ++ "\nSummary: " ++ e.summary ++
                    "\nLink: " ++ e.link))) "blog" "").2)

def monitor_blog_block (env : Env) (name : String) :
    Option (List String) → List MonitoringResult × List Event
  | none => ([], [])
  | some feeds => if feeds = [] then ([], []) else blog_payload env name feeds

/-- The changelog, pricing and blog parts of `monitor_target`, threading the
store left to right. -/
def monitor_target_tail (env : Env) (st : Store) (t : CompetitorTarget) :
    List MonitoringResult × Store × List Event :=
  ((optional_channel_block env st t.name t.changelog_url "changelog").1 ++
     (optional_channel_block env
        (optional_channel_block env st t.name t.changelog_url "changelog").2.1
        t.name t.pricing_url "pricing").1 ++
     (monitor_blog_block env t.name t.rss_feeds).1,
   (optional_channel_block env
      (optional_channel_block env st t.name t.changelog_url "changelog").2.1
      t.name t.pricing_url "pricing").2.1,
   (optional_channel_block env st t.name t.changelog_url "changelog").2.2 ++
     (optional_channel_block env
        (optional_channel_block env st t.name t.changelog_url "changelog").2.1
        t.name t.pricing_url "pricing").2.2 ++
     (monitor_blog_block env t.name t.rss_feeds).2)

/-- Translation of `monitor_target`: website (unconditional), then changelog,
pricing and blog; results are concatenated in that fixed channel order and
the store updates thread in program order. -/
def monitor_target (env : Env) (st : Store) (t : CompetitorTarget) :
    List MonitoringResult × Store × List Event :=
  ((monitor_channel_block env st t.name t.website_url "website").1 ++
     (monitor_target_tail env
        (monitor_channel_block env st t.name t.website_url "website").2.1 t).1,
   (monitor_target_tail env
      (monitor_channel_block env st t.name t.website_url "website").2.1 t).2.1,
   (monitor_channel_block env st t.name t.website_url "website").2.2 ++
     (monitor_target_tail env
        (monitor_channel_block env st t.name t.website_url "website").2.1 t).2.2)

/-- The per-target loop of `run_monitoring_cycle` (lines 486-492).  The
`try/except` around `monitor_target` is dead in the embedding because
`monitor_target` is total: every failure of a stage is already absorbed
below the per-(target, channel) boundary. -/
def cycle_body (env : Env) (st : Store) (targets : List CompetitorTarget) :
    List MonitoringResult × Store × List Event :=
  match targets with
  | [] => ([], st, [])
  | t :: rest =>
      ((monitor_target env st t).1 ++ (cycle_body env (monitor_target env st t).2.1 rest).1,
       (cycle_body env (monitor_target env st t).2.1 rest).2.1,
       (monitor_target env st t).2.2 ++ (cycle_body env (monitor_target env st t).2.1 rest).2.2)

/-- Translation of `run_monitoring_cycle`: process all targets, then call
`_save_historical_data()` once — the whole-store commit event. -/
def run_monitoring_cycle (env : Env) (st : Store) (targets : List CompetitorTarget) :
    List MonitoringResult × Store × List Event :=
  ((cycle_body env st targets).1, (cycle_body env st targets).2.1,
   (cycle_body env st targets).2.2 ++ [Event.commit])

/-- Minimal target with only a website URL. -/
def targetSimple : CompetitorTarget :=
  { name := "T", website_url := "https://t.example", changelog_url := none,
    pricing_url := none, blog_url := none, rss_feeds := none }

/-- Environment with the network down: every fetch raises. -/
def envFetchDown : Env where
  fetch := fun _ => Except.error "down"
  aiMain := fun _ => Except.ok "a summary"
  aiChange := fun _ => Except.ok "a diff"
  feedParse := fun _ => Except.ok []
  seed0 := 0
  seed1 := 0
  now := "2024-01-01T00:00:00"
  nowT := 1704067200

/-! ## Idempotence of consecutive cycles (C5) -/

/-- The historical store already holds, for every configured channel of `t`
whose fetch yields non-empty content, exactly that content as the previous
snapshot. -/
def TargetAgrees (env : Env) (st : Store) (t : CompetitorTarget) : Prop :=
  (scrape_website_content env t.website_url ≠ "" →
    ((lookupStore st (t.name ++ "_" ++ "website")).map HistEntry.content).getD "" =
      scrape_website_content env t.website_url) ∧
  (∀ u, t.changelog_url = some u → u ≠ "" → scrape_website_content env u ≠ "" →
    ((lookupStore st (t.name ++ "_" ++ "changelog")).map HistEntry.content).getD "" =
      scrape_website_content env u) ∧
  (∀ u, t.pricing_url = some u → u ≠ "" → scrape_website_content env u ≠ "" →
    ((lookupStore st (t.name ++ "_" ++ "pricing")).map HistEntry.content).getD "" =
      scrape_website_content env u)

/-- Environment whose single feed carries one entry published in the future
(after cycle time). -/
def envRssFuture : Env where
  fetch := fun _ => Except.error "x"
  aiMain := fun _ => Except.error "x"
  aiChange := fun _ => Except.error "x"
  feedParse := fun _ => Except.ok
    [{ title := "t", summary := none, link := "l", published_parsed := some 1000696800 }]
  seed0 := 0
  seed1 := 0
  now := ""
  nowT := 1000000000

/-- Environment whose single feed has one entry with an unparsable publish
date and one valid in-window entry. -/
def envRssMixed : Env where
  fetch := fun _ => Except.error "x"
  aiMain := fun _ => Except.error "x"
  aiChange := fun _ => Except.error "x"
  feedParse := fun _ => Except.ok
    [{ title := "bad", summary := none, link := "b", published_parsed := none },
     { title := "good", summary := some "s", link := "g", published_parsed := some 1000000000 }]
  seed0 := 0
  seed1 := 0
  now := ""
  nowT := 1000000000

/-! ## Scheduler: `setup_monitoring_schedule` and the polling loop of `main`
(lines 710-738).

The cadence (`schedule.every().day.at(...)` et al.) is a grid of trigger
times `first + k * period`; `main` registers the schedule, runs the initial
report synchronously, then loops `schedule.run_pending(); time.sleep(60)`.
`run_pending` runs the due job synchronously in the same thread (the job
body is `asyncio.run(...)`, which blocks until the cycle completes), after
which the schedule library computes the next trigger time after completion.
A cycle started at time `x` takes `dur x` seconds; completed cycles are
recorded as `(start, end)` intervals. -/

/-- The first grid point `first + k * period` strictly after `t` (how the
schedule library reschedules a job after it runs). -/
def nextTrigger (first period t : Nat) : Nat :=
  if t < first then first else first + period * ((t - first) / period + 1)

/-- Scheduler state: current time, next registered trigger time, and the
completed cycle runs as `(start, end)` pairs. -/
structure SchedState where
  now : Nat
  nextRun : Nat
  runs : List (Nat × Nat)
  deriving DecidableEq

/-- One iteration of `while True: schedule.run_pending(); time.sleep(60)`:
if the trigger time has passed, the cycle runs synchronously (blocking the
only thread for its whole duration) and the next trigger is recomputed
after completion; otherwise only the sleep advances time. -/
def schedStep (first period : Nat) (dur : Nat → Nat) (s : SchedState) : SchedState :=
  if s.nextRun ≤ s.now then
    { now := s.now + dur s.now + 60,
      nextRun := nextTrigger first period (s.now + dur s.now),
      runs := s.runs ++ [(s.now, s.now + dur s.now)] }
  else
    { now := s.now + 60, nextRun := s.nextRun, runs := s.runs }

/-- Translation of `main` before the loop: the schedule setup registers the first
trigger, then the initial report runs synchronously at startup time `t0`. -/
def schedInit (first : Nat) (dur : Nat → Nat) (t0 : Nat) : SchedState :=
  { now := t0 + dur t0, nextRun := first, runs := [(t0, t0 + dur t0)] }

/-- The scheduler state after `n` iterations of the polling loop. -/
def schedRun (first period : Nat) (dur : Nat → Nat) (t0 n : Nat) : SchedState :=
  (schedStep first period dur)^[n] (schedInit first dur t0)

theorem pyHashRaw_lt (k0 k1 : Nat) (s : String) : pyHashRaw k0 k1 s < 2 ^ 64 := by
  unfold pyHashRaw
  split
  · exact Nat.two_pow_pos 64
  · exact Nat.mod_lt _ (Nat.two_pow_pos 64)

/-- C1: the claim states that the digest stored in a HistoricalEntry is a pure
deterministic function of the content bytes, stable across process restarts,
with digest equality holding iff content equality.  The code computes the
digest as `str(hash(content))` with the per-process-salted Python string hash,
so the claim FAILS on the code: (1) with hash seed `(0,0)` and hash seed
`(1,0)` — two different process launches — the digest of the same content
"abc" differs, refuting restart stability; (2) the digest takes at most
`2 ^ 64` values over infinitely many strings, so two distinct contents share
a digest, refuting "digest equality implies content equality".  This is a
bug of the code relative to the spec, which requires a restart-stable digest
and itself flags the in-process hash of the source as non-portable. -/
theorem digest_seed_dependent_and_collides :
    pyHashStr 0 0 "abc" ≠ pyHashStr 1 0 "abc" ∧
    ∃ c1 c2 : String, c1 ≠ c2 ∧ pyHashStr 0 0 c1 = pyHashStr 0 0 c2 := by
  constructor
  · decide
  · obtain ⟨c1, c2, hne, heq⟩ :=
      Finite.exists_ne_map_eq_of_infinite
        (fun s : String => (⟨pyHashRaw 0 0 s, pyHashRaw_lt 0 0 s⟩ : Fin (2 ^ 64)))
    refine ⟨c1, c2, hne, ?_⟩
    unfold pyHashStr
    exact congrArg pySignFix (congrArg Fin.val heq)

/-- C3 counterexample: the claim states that on capability failure `analyze`
returns the sentinel summary "analysis unavailable".  On the code the
sentinel is the string "AI analysis failed": with an environment whose
summarization call fails, the result summary is "AI analysis failed", which
differs from the sentinel the claim names. -/
theorem analyze_sentinel_cex :
    envAiDown.aiMain (buildPrompt "c" "website" "") = Except.error "boom" ∧
    (analyze_content_with_ai envAiDown "c" "website" "").1.ai_summary = "AI analysis failed" ∧
    (analyze_content_with_ai envAiDown "c" "website" "").1.ai_summary ≠ "analysis unavailable" := by
  refine ⟨rfl, rfl, ?_⟩
  decide

/-- C3 amended: for every input, when a summarization call fails — the first
call, or the tier-2 call reached when tier 1 fired — `analyze` returns the
sentinel summary "AI analysis failed" (not "analysis unavailable") together
with an empty detected-changes list; being a total function of its
arguments, it never raises past the analyze boundary. -/
theorem analyze_failure_sentinel :
    ∀ (env : Env) (content content_type previous_content : String),
      (∀ e, env.aiMain (buildPrompt content content_type previous_content) = Except.error e →
        (analyze_content_with_ai env content content_type previous_content).1 =
          { ai_summary := "AI analysis failed", detected_changes := [] }) ∧
      (∀ s e, env.aiMain (buildPrompt content content_type previous_content) = Except.ok s →
        previous_content ≠ "" → previous_content ≠ content →
        env.aiChange (change_prompt (previous_content.take 1000) (content.take 1000)) =
          Except.error e →
        (analyze_content_with_ai env content content_type previous_content).1 =
          { ai_summary := "AI analysis failed", detected_changes := [] }) := by
  intro env c ty p
  constructor
  · intro e h
    unfold analyze_content_with_ai
    split
    · rfl
    · rename_i s heq
      rw [h] at heq
      simp at heq
  · intro s e h1 h2 h3 h4
    unfold analyze_content_with_ai
    split
    · rename_i a heq
      rw [h1] at heq
    · rename_i s2 heq
      rw [if_pos ⟨h2, h3⟩]
      split
      · rfl
      · rename_i t heq2
        rw [h4] at heq2
        simp at heq2

/-- C3 amended, witness: the theorem applied to `envAiDown` at concrete
input. -/
theorem analyze_failure_sentinel_witness :
    (analyze_content_with_ai envAiDown "c" "website" "").1 =
      { ai_summary := "AI analysis failed", detected_changes := [] } :=
  (analyze_failure_sentinel envAiDown "c" "website" "").1 "boom" rfl

/-- C7: the tier-2 summarization invocation happens only if tier 1 fired:
every `aiChangeCall` in the analyzer trace implies that `previous_content`
and `content` are byte-for-byte unequal, and its message is the comparison
prompt built from the first 1000 characters of each of the two contents. -/
theorem tier2_only_on_change :
    ∀ (env : Env) (content content_type previous_content cp : String),
      Event.aiChangeCall cp ∈
          (analyze_content_with_ai env content content_type previous_content).2 →
      previous_content ≠ content ∧
      cp = change_prompt (previous_content.take 1000) (content.take 1000) := by
  intro env c ty p cp h
  unfold analyze_content_with_ai at h
  split at h
  · simp at h
  · split at h
    · rename_i hcond
      split at h
      · simp at h
        exact ⟨hcond.2, h⟩
      · simp at h
        exact ⟨hcond.2, h⟩
    · simp at h

/-- C7 witness: with previous content "a" and content "b" the tier-2 call is
made, and the theorem applied there yields the inequality and the sliced
prompt. -/
theorem tier2_only_on_change_witness :
    ("a" : String) ≠ "b" ∧
    change_prompt (("a" : String).take 1000) (("b" : String).take 1000) =
      change_prompt (("a" : String).take 1000) (("b" : String).take 1000) :=
  tier2_only_on_change envAiUp "b" "website" "a"
    (change_prompt (("a" : String).take 1000) (("b" : String).take 1000))
    (List.mem_cons_of_mem _ (List.mem_cons_self _ _))

theorem optional_channel_block_none (env : Env) (st : Store) (name ty : String) :
    optional_channel_block env st name none ty = ([], st, []) := rfl

theorem optional_channel_block_some (env : Env) (st : Store) (name u ty : String) :
    optional_channel_block env st name (some u) ty =
      if u ≠ "" then monitor_channel_block env st name u ty else ([], st, []) := rfl

theorem monitor_blog_block_none (env : Env) (name : String) :
    monitor_blog_block env name none = ([], []) := rfl

theorem monitor_blog_block_some (env : Env) (name : String) (feeds : List String) :
    monitor_blog_block env name (some feeds) =
      if feeds = [] then ([], []) else blog_payload env name feeds := rfl

/-! ## Store and key lemmas -/

theorem lookupStore_setStore_self (st : Store) (k : String) (v : HistEntry) :
    lookupStore (setStore st k v) k = some v := by
  induction st with
  | nil => simp [setStore, lookupStore]
  | cons hd tl ih =>
      obtain ⟨k2, v2⟩ := hd
      simp only [setStore]
      by_cases h : k2 = k
      · rw [if_pos h]
        simp [lookupStore, h]
      · rw [if_neg h]
        simp only [lookupStore]
        rw [if_neg h]
        exact ih

theorem lookupStore_setStore_ne (st : Store) (k kq : String) (v : HistEntry) (h : kq ≠ k) :
    lookupStore (setStore st k v) kq = lookupStore st kq := by
  induction st with
  | nil =>
      simp only [setStore, lookupStore]
      rw [if_neg (fun he => h he.symm)]
  | cons hd tl ih =>
      obtain ⟨k2, v2⟩ := hd
      simp only [setStore]
      by_cases h2 : k2 = k
      · rw [if_pos h2]
        simp only [lookupStore]
        rw [if_neg (fun he => h (h2 ▸ he).symm ), if_neg (fun he => h (h2 ▸ he).symm )]
      · rw [if_neg h2]
        simp only [lookupStore]
        by_cases h3 : k2 = kq
        · rw [if_pos h3, if_pos h3]
        · rw [if_neg h3, if_neg h3]
          exact ih

theorem stringDataInj {s t : String} (h : s.data = t.data) : s = t := by
  cases s
  cases t
  exact congrArg String.mk h

theorem listAppend_ne_of_rev_take {a b : List Char} (k : Nat) (hka : k ≤ a.length)
    (hkb : k ≤ b.length) (h : a.reverse.take k ≠ b.reverse.take k) :
    ∀ s1 s2 : List Char, s1 ++ a ≠ s2 ++ b := by
  intro s1 s2 he
  apply h
  have h2 : a.reverse ++ s1.reverse = b.reverse ++ s2.reverse := by
    rw [← List.reverse_append, ← List.reverse_append, he]
  have h3 : (a.reverse ++ s1.reverse).take k = (b.reverse ++ s2.reverse).take k := by rw [h2]
  rwa [List.take_append_of_le_length (by simpa using hka),
       List.take_append_of_le_length (by simpa using hkb)] at h3

/-- Distinct channel suffixes give distinct historical-store keys, whatever
the (possibly colliding) target-name prefixes are. -/
theorem stringAppend_ne_of_rev_take (a b : String) (k : Nat) (hka : k ≤ a.data.length)
    (hkb : k ≤ b.data.length) (h : a.data.reverse.take k ≠ b.data.reverse.take k) :
    ∀ s1 s2 : String, s1 ++ a ≠ s2 ++ b := by
  intro s1 s2 he
  exact listAppend_ne_of_rev_take k hka hkb h s1.data s2.data
    (by rw [← String.data_append, ← String.data_append, he])

theorem listAppend_cancel_right {a b c : List Char} (h : a ++ c = b ++ c) : a = b := by
  have hlen : a.length = b.length := by
    have h2 := congrArg List.length h
    simp only [List.length_append] at h2
    omega
  exact (List.append_inj h hlen).1

theorem stringAppend_cancel_right {s1 s2 t : String} (h : s1 ++ t = s2 ++ t) : s1 = s2 := by
  apply stringDataInj
  apply listAppend_cancel_right (c := t.data)
  rw [← String.data_append, ← String.data_append, h]

/-- Same channel suffix, different target names: distinct keys. -/
theorem key_ne_of_name_ne {n1 n2 : String} (ty : String) (h : n1 ≠ n2) :
    n1 ++ "_" ++ ty ≠ n2 ++ "_" ++ ty := by
  intro he
  exact h (stringAppend_cancel_right (stringAppend_cancel_right he))

theorem key_ne_website_changelog (n1 n2 : String) :
    n1 ++ "_" ++ "website" ≠ n2 ++ "_" ++ "changelog" :=
  stringAppend_ne_of_rev_take "website" "changelog" 2 (by decide) (by decide) (by decide)
    (n1 ++ "_") (n2 ++ "_")

theorem key_ne_website_pricing (n1 n2 : String) :
    n1 ++ "_" ++ "website" ≠ n2 ++ "_" ++ "pricing" :=
  stringAppend_ne_of_rev_take "website" "pricing" 2 (by decide) (by decide) (by decide)
    (n1 ++ "_") (n2 ++ "_")

theorem key_ne_changelog_pricing (n1 n2 : String) :
    n1 ++ "_" ++ "changelog" ≠ n2 ++ "_" ++ "pricing" :=
  stringAppend_ne_of_rev_take "changelog" "pricing" 2 (by decide) (by decide) (by decide)
    (n1 ++ "_") (n2 ++ "_")

/-! ## Analyzer lemmas -/

/-- When the previous content equals the current content, or there is no
previous content, tier 1 does not fire: the change list is empty and no
tier-2 call is made, whatever the capability outcomes are. -/
theorem analyze_no_change (env : Env) (c ty p : String) (h : p = c ∨ p = "") :
    (analyze_content_with_ai env c ty p).1.detected_changes = [] ∧
    ∀ cp, Event.aiChangeCall cp ∉ (analyze_content_with_ai env c ty p).2 := by
  have hcond : ¬(p ≠ "" ∧ p ≠ c) := by
    rcases h with h | h
    · exact fun hc => hc.2 h
    · exact fun hc => hc.1 h
  unfold analyze_content_with_ai
  split
  · refine ⟨rfl, ?_⟩
    intro cp hm
    simp at hm
  · rw [if_neg hcond]
    refine ⟨rfl, ?_⟩
    intro cp hm
    simp at hm

/-- The analyzer trace holds only capability-call events. -/
theorem analyze_trace_events (env : Env) (c ty p : String) :
    ∀ ev ∈ (analyze_content_with_ai env c ty p).2,
      (∃ m, ev = Event.aiMainCall m) ∨ ∃ m, ev = Event.aiChangeCall m := by
  unfold analyze_content_with_ai
  split
  · intro ev hm
    simp at hm
    subst hm
    exact Or.inl ⟨_, rfl⟩
  · split
    · split
      · intro ev hm
        simp at hm
        rcases hm with h | h <;> subst h
        · exact Or.inl ⟨_, rfl⟩
        · exact Or.inr ⟨_, rfl⟩
      · intro ev hm
        simp at hm
        rcases hm with h | h <;> subst h
        · exact Or.inl ⟨_, rfl⟩
        · exact Or.inr ⟨_, rfl⟩
    · intro ev hm
      simp at hm
      subst hm
      exact Or.inl ⟨_, rfl⟩

/-! ## Channel-block lemmas -/

theorem mcb_skip (env : Env) (st : Store) (name url ty : String)
    (h : scrape_website_content env url = "") :
    monitor_channel_block env st name url ty = ([], st, [Event.fetchCall url]) := by
  unfold monitor_channel_block
  rw [if_neg (by simp [h])]

theorem mcb_store_ne (env : Env) (st : Store) (name url ty k : String)
    (h : k ≠ name ++ "_" ++ ty) :
    lookupStore (monitor_channel_block env st name url ty).2.1 k = lookupStore st k := by
  unfold monitor_channel_block
  split
  · exact lookupStore_setStore_ne st _ k _ h
  · rfl

theorem mcb_store_self (env : Env) (st : Store) (name url ty : String)
    (h : scrape_website_content env url ≠ "") :
    lookupStore (monitor_channel_block env st name url ty).2.1 (name ++ "_" ++ ty) =
      some { content := scrape_website_content env url,
             hash := toString (pyHashStr env.seed0 env.seed1 (scrape_website_content env url)),
             last_updated := env.now } := by
  unfold monitor_channel_block
  rw [if_pos h]
  exact lookupStore_setStore_self st _ _

theorem mcb_types (env : Env) (st : Store) (name url ty : String) :
    ∀ r ∈ (monitor_channel_block env st name url ty).1,
      r.content_type = ty ∧ r.target_name = name := by
  unfold monitor_channel_block
  split
  · intro r hm
    simp at hm
    subst hm
    exact ⟨rfl, rfl⟩
  · intro r hm
    simp at hm

theorem mcb_no_changes (env : Env) (st : Store) (name url ty : String)
    (h : scrape_website_content env url ≠ "" →
      ((lookupStore st (name ++ "_" ++ ty)).map HistEntry.content).getD "" =
        scrape_website_content env url) :
    (∀ r ∈ (monitor_channel_block env st name url ty).1, r.detected_changes = []) ∧
    (∀ cp, Event.aiChangeCall cp ∉ (monitor_channel_block env st name url ty).2.2) := by
  unfold monitor_channel_block
  split
  · rename_i hcond
    constructor
    · intro r hm
      simp at hm
      subst hm
      exact (analyze_no_change env _ ty _ (Or.inl (h hcond))).1
    · intro cp hm
      simp at hm
      exact (analyze_no_change env _ ty _ (Or.inl (h hcond))).2 cp hm
  · exact ⟨by intro r hm; simp at hm, by intro cp hm; simp at hm⟩

theorem mcb_no_commit (env : Env) (st : Store) (name url ty : String) :
    Event.commit ∉ (monitor_channel_block env st name url ty).2.2 := by
  unfold monitor_channel_block
  split
  · intro hm
    simp at hm
    rcases (analyze_trace_events env _ ty _ _ hm) with ⟨m, hme⟩ | ⟨m, hme⟩ <;> simp at hme
  · intro hm
    simp at hm

theorem ocb_store_ne (env : Env) (st : Store) (name : String) (channel_url : Option String)
    (ty k : String) (h : k ≠ name ++ "_" ++ ty) :
    lookupStore (optional_channel_block env st name channel_url ty).2.1 k = lookupStore st k := by
  cases channel_url with
  | none => rfl
  | some u =>
      rw [optional_channel_block_some]
      by_cases hu : u ≠ ""
      · rw [if_pos hu]
        exact mcb_store_ne env st name u ty k h
      · rw [if_neg hu]

theorem ocb_types (env : Env) (st : Store) (name : String) (channel_url : Option String)
    (ty : String) :
    ∀ r ∈ (optional_channel_block env st name channel_url ty).1,
      r.content_type = ty ∧ r.target_name = name := by
  cases channel_url with
  | none => intro r hm; simp [optional_channel_block_none] at hm
  | some u =>
      rw [optional_channel_block_some]
      by_cases hu : u ≠ ""
      · rw [if_pos hu]
        exact mcb_types env st name u ty
      · rw [if_neg hu]
        intro r hm
        simp at hm

theorem ocb_no_commit (env : Env) (st : Store) (name : String) (channel_url : Option String)
    (ty : String) :
    Event.commit ∉ (optional_channel_block env st name channel_url ty).2.2 := by
  cases channel_url with
  | none => intro hm; simp [optional_channel_block_none] at hm
  | some u =>
      rw [optional_channel_block_some]
      by_cases hu : u ≠ ""
      · rw [if_pos hu]
        exact mcb_no_commit env st name u ty
      · rw [if_neg hu]
        intro hm
        simp at hm

theorem ocb_no_changes (env : Env) (st : Store) (name : String) (channel_url : Option String)
    (ty : String)
    (h : ∀ u, channel_url = some u → u ≠ "" → scrape_website_content env u ≠ "" →
      ((lookupStore st (name ++ "_" ++ ty)).map HistEntry.content).getD "" =
        scrape_website_content env u) :
    (∀ r ∈ (optional_channel_block env st name channel_url ty).1, r.detected_changes = []) ∧
    (∀ cp, Event.aiChangeCall cp ∉ (optional_channel_block env st name channel_url ty).2.2) := by
  cases channel_url with
  | none =>
      exact ⟨by intro r hm; simp [optional_channel_block_none] at hm,
             by intro cp hm; simp [optional_channel_block_none] at hm⟩
  | some u =>
      rw [optional_channel_block_some]
      by_cases hu : u ≠ ""
      · rw [if_pos hu]
        exact mcb_no_changes env st name u ty (fun hs => h u rfl hu hs)
      · rw [if_neg hu]
        exact ⟨by intro r hm; simp at hm, by intro cp hm; simp at hm⟩

theorem blog_payload_types (env : Env) (name : String) (feeds : List String) :
    ∀ r ∈ (blog_payload env name feeds).1,
      r.content_type = "blog" ∧ r.target_name = name := by
  unfold blog_payload
  split
  · intro r hm; simp at hm
  · intro r hm
    simp at hm
    subst hm
    exact ⟨rfl, rfl⟩

theorem blog_types (env : Env) (name : String) (feeds? : Option (List String)) :
    ∀ r ∈ (monitor_blog_block env name feeds?).1,
      r.content_type = "blog" ∧ r.target_name = name := by
  cases feeds? with
  | none => intro r hm; simp [monitor_blog_block_none] at hm
  | some feeds =>
      rw [monitor_blog_block_some]
      by_cases hf : feeds = []
      · rw [if_pos hf]
        intro r hm
        simp at hm
      · rw [if_neg hf]
        exact blog_payload_types env name feeds

theorem blog_payload_no_changes (env : Env) (name : String) (feeds : List String) :
    (∀ r ∈ (blog_payload env name feeds).1, r.detected_changes = []) ∧
    (∀ cp, Event.aiChangeCall cp ∉ (blog_payload env name feeds).2) := by
  unfold blog_payload
  split
  · exact ⟨by intro r hm; simp at hm, by intro cp hm; simp at hm⟩
  · constructor
    · intro r hm
      simp at hm
      subst hm
      exact (analyze_no_change env _ "blog" "" (Or.inr rfl)).1
    · intro cp hm
      exact (analyze_no_change env _ "blog" "" (Or.inr rfl)).2 cp hm

theorem blog_no_changes (env : Env) (name : String) (feeds? : Option (List String)) :
    (∀ r ∈ (monitor_blog_block env name feeds?).1, r.detected_changes = []) ∧
    (∀ cp, Event.aiChangeCall cp ∉ (monitor_blog_block env name feeds?).2) := by
  cases feeds? with
  | none =>
      exact ⟨by intro r hm; simp [monitor_blog_block_none] at hm,
             by intro cp hm; simp [monitor_blog_block_none] at hm⟩
  | some feeds =>
      rw [monitor_blog_block_some]
      by_cases hf : feeds = []
      · rw [if_pos hf]
        exact ⟨by intro r hm; simp at hm, by intro cp hm; simp at hm⟩
      · rw [if_neg hf]
        exact blog_payload_no_changes env name feeds

theorem blog_payload_no_commit (env : Env) (name : String) (feeds : List String) :
    Event.commit ∉ (blog_payload env name feeds).2 := by
  unfold blog_payload
  split
  · intro hm; simp at hm
  · intro hm
    rcases (analyze_trace_events env _ "blog" "" _ hm) with ⟨m, hme⟩ | ⟨m, hme⟩ <;>
      simp at hme

theorem blog_no_commit (env : Env) (name : String) (feeds? : Option (List String)) :
    Event.commit ∉ (monitor_blog_block env name feeds?).2 := by
  cases feeds? with
  | none => intro hm; simp [monitor_blog_block_none] at hm
  | some feeds =>
      rw [monitor_blog_block_some]
      by_cases hf : feeds = []
      · rw [if_pos hf]
        intro hm
        simp at hm
      · rw [if_neg hf]
        exact blog_payload_no_commit env name feeds

/-! ## Target- and cycle-level lemmas -/

theorem scrape_of_error (env : Env) (url e : String) (h : env.fetch url = Except.error e) :
    scrape_website_content env url = "" := by
  unfold scrape_website_content
  rw [h]

theorem scrape_of_ok (env : Env) (url c : String) (h : env.fetch url = Except.ok c) :
    scrape_website_content env url = c := by
  unfold scrape_website_content
  rw [h]

theorem analyze_error_out (env : Env) (c ty p e : String)
    (h : env.aiMain (buildPrompt c ty p) = Except.error e) :
    analyze_content_with_ai env c ty p =
      ({ ai_summary := "AI analysis failed", detected_changes := [] },
       [Event.aiMainCall (buildPrompt c ty p)]) := by
  unfold analyze_content_with_ai
  split
  · rfl
  · rename_i s heq
    rw [h] at heq
    simp at heq

theorem mcb_analysis_error (env : Env) (st : Store) (name url ty c e : String)
    (hf : scrape_website_content env url = c) (hc : c ≠ "")
    (ha : env.aiMain (buildPrompt c ty
      (((lookupStore st (name ++ "_" ++ ty)).map HistEntry.content).getD "")) =
        Except.error e) :
    (monitor_channel_block env st name url ty).1 =
      [{ timestamp := env.now, target_name := name, content_type := ty, url := url,
         content_hash := toString (pyHashStr env.seed0 env.seed1 c),
         raw_content := c, ai_summary := "AI analysis failed", detected_changes := [],
         metadata := [] }] ∧
    (monitor_channel_block env st name url ty).2.1 =
      setStore st (name ++ "_" ++ ty)
        { content := c, hash := toString (pyHashStr env.seed0 env.seed1 c),
          last_updated := env.now } := by
  unfold monitor_channel_block
  rw [hf, if_pos hc]
  dsimp only
  rw [analyze_error_out env c ty _ e ha]
  exact ⟨rfl, rfl⟩

theorem ocb_skip_results (env : Env) (st : Store) (name : String)
    (channel_url : Option String) (ty : String)
    (h : ∀ u, channel_url = some u → scrape_website_content env u = "") :
    (optional_channel_block env st name channel_url ty).1 = [] ∧
    (optional_channel_block env st name channel_url ty).2.1 = st := by
  cases channel_url with
  | none => exact ⟨rfl, rfl⟩
  | some u =>
      rw [optional_channel_block_some]
      by_cases hu : u ≠ ""
      · rw [if_pos hu, mcb_skip env st name u ty (h u rfl)]
        exact ⟨rfl, rfl⟩
      · rw [if_neg hu]
        exact ⟨rfl, rfl⟩

theorem mtail_store_ne (env : Env) (st : Store) (t : CompetitorTarget) (k : String)
    (h1 : k ≠ t.name ++ "_" ++ "changelog") (h2 : k ≠ t.name ++ "_" ++ "pricing") :
    lookupStore (monitor_target_tail env st t).2.1 k = lookupStore st k := by
  unfold monitor_target_tail
  dsimp only
  rw [ocb_store_ne env _ t.name t.pricing_url "pricing" k h2,
      ocb_store_ne env st t.name t.changelog_url "changelog" k h1]

theorem mt_store_ne (env : Env) (st : Store) (t : CompetitorTarget) (k : String)
    (h0 : k ≠ t.name ++ "_" ++ "website") (h1 : k ≠ t.name ++ "_" ++ "changelog")
    (h2 : k ≠ t.name ++ "_" ++ "pricing") :
    lookupStore (monitor_target env st t).2.1 k = lookupStore st k := by
  unfold monitor_target
  dsimp only
  rw [mtail_store_ne env _ t k h1 h2,
      mcb_store_ne env st t.name t.website_url "website" k h0]

theorem mtail_types (env : Env) (st : Store) (t : CompetitorTarget) :
    ∀ r ∈ (monitor_target_tail env st t).1,
      (r.content_type = "changelog" ∨ r.content_type = "pricing" ∨
       r.content_type = "blog") ∧ r.target_name = t.name := by
  unfold monitor_target_tail
  dsimp only
  intro r hm
  rw [List.mem_append, List.mem_append] at hm
  rcases hm with (hm | hm) | hm
  · have h := ocb_types env st t.name t.changelog_url "changelog" r hm
    exact ⟨Or.inl h.1, h.2⟩
  · have h := ocb_types env _ t.name t.pricing_url "pricing" r hm
    exact ⟨Or.inr (Or.inl h.1), h.2⟩
  · have h := blog_types env t.name t.rss_feeds r hm
    exact ⟨Or.inr (Or.inr h.1), h.2⟩

theorem mt_website_skip (env : Env) (st : Store) (t : CompetitorTarget)
    (hs : scrape_website_content env t.website_url = "") :
    monitor_target env st t =
      ((monitor_target_tail env st t).1, (monitor_target_tail env st t).2.1,
       Event.fetchCall t.website_url :: (monitor_target_tail env st t).2.2) := by
  unfold monitor_target
  rw [mcb_skip env st t.name t.website_url "website" hs]
  rfl

theorem mtail_no_commit (env : Env) (st : Store) (t : CompetitorTarget) :
    Event.commit ∉ (monitor_target_tail env st t).2.2 := by
  unfold monitor_target_tail
  dsimp only
  intro hm
  rw [List.mem_append, List.mem_append] at hm
  rcases hm with (hm | hm) | hm
  · exact ocb_no_commit env st t.name t.changelog_url "changelog" hm
  · exact ocb_no_commit env _ t.name t.pricing_url "pricing" hm
  · exact blog_no_commit env t.name t.rss_feeds hm

theorem mt_no_commit (env : Env) (st : Store) (t : CompetitorTarget) :
    Event.commit ∉ (monitor_target env st t).2.2 := by
  unfold monitor_target
  dsimp only
  intro hm
  rw [List.mem_append] at hm
  rcases hm with hm | hm
  · exact mcb_no_commit env st t.name t.website_url "website" hm
  · exact mtail_no_commit env _ t hm

theorem cycle_body_no_commit (env : Env) (targets : List CompetitorTarget) :
    ∀ st, Event.commit ∉ (cycle_body env st targets).2.2 := by
  induction targets with
  | nil => intro st hm; simp [cycle_body] at hm
  | cons t rest ih =>
      intro st hm
      unfold cycle_body at hm
      dsimp only at hm
      rw [List.mem_append] at hm
      rcases hm with hm | hm
      · exact mt_no_commit env st t hm
      · exact ih _ hm

/-- C4: in every run of the cycle orchestrator the whole-store commit
(`_save_historical_data`) is invoked exactly once, as the final event after
all targets are processed: the cycle trace is the per-target trace (holding
all the staging `put` events) followed by exactly one `commit`, and no
commit occurs inside the per-target trace. -/
theorem commit_once_after_all_targets :
    ∀ (env : Env) (st : Store) (targets : List CompetitorTarget),
      (run_monitoring_cycle env st targets).2.2 =
        (cycle_body env st targets).2.2 ++ [Event.commit] ∧
      Event.commit ∉ (cycle_body env st targets).2.2 ∧
      (run_monitoring_cycle env st targets).2.2.getLast? = some Event.commit :=
  fun env st targets =>
    ⟨rfl, cycle_body_no_commit env targets st, by
      show ((cycle_body env st targets).2.2 ++ [Event.commit]).getLast? = some Event.commit
      simp⟩

/-- C2 counterexample: the claim says an error at the analysis stage yields
zero MonitoringResults for the channel.  On the code an analysis failure is
absorbed inside `analyze_content_with_ai` and the channel still yields one
result carrying the sentinel summary: with a working fetch and a failing
summarization capability the website channel produces exactly one result. -/
theorem analysis_error_still_yields_result_cex :
    envAiDown.aiMain (buildPrompt "hello" "website" "") = Except.error "boom" ∧
    (monitor_target envAiDown [] targetSimple).1.map MonitoringResult.content_type =
      ["website"] ∧
    (monitor_target envAiDown [] targetSimple).1.map MonitoringResult.ai_summary =
      ["AI analysis failed"] := by
  refine ⟨rfl, ?_, ?_⟩ <;> rfl

/-- C10: for the website, changelog and pricing channels, if the fetch fails
or yields empty content (the scrape evaluates to the empty string — its
value on any caught exception and on genuinely empty content), then the
channel contributes no MonitoringResult and the HistoricalStore entry for
that (target, channel) key after `monitor_target` is exactly what it was
before: the prior snapshot is preserved, never overwritten with empty
content. -/
theorem failed_fetch_preserves_history :
    ∀ (env : Env) (st : Store) (t : CompetitorTarget),
      (scrape_website_content env t.website_url = "" →
        (∀ r ∈ (monitor_target env st t).1, r.content_type ≠ "website") ∧
        lookupStore (monitor_target env st t).2.1 (t.name ++ "_" ++ "website") =
          lookupStore st (t.name ++ "_" ++ "website")) ∧
      (∀ u, t.changelog_url = some u → scrape_website_content env u = "" →
        (∀ r ∈ (monitor_target env st t).1, r.content_type ≠ "changelog") ∧
        lookupStore (monitor_target env st t).2.1 (t.name ++ "_" ++ "changelog") =
          lookupStore st (t.name ++ "_" ++ "changelog")) ∧
      (∀ u, t.pricing_url = some u → scrape_website_content env u = "" →
        (∀ r ∈ (monitor_target env st t).1, r.content_type ≠ "pricing") ∧
        lookupStore (monitor_target env st t).2.1 (t.name ++ "_" ++ "pricing") =
          lookupStore st (t.name ++ "_" ++ "pricing")) := by
  intro env st t
  refine ⟨?_, ?_, ?_⟩
  · intro hs
    rw [mt_website_skip env st t hs]
    constructor
    · intro r hm
      have h := mtail_types env st t r hm
      rcases h.1 with h | h | h <;> rw [h] <;> decide
    · exact mtail_store_ne env st t _ (key_ne_website_changelog t.name t.name)
        (key_ne_website_pricing t.name t.name)
  · intro u hu hscr
    have hskip : ∀ u2, t.changelog_url = some u2 → scrape_website_content env u2 = "" := by
      intro u2 hu2
      rw [hu] at hu2
      injection hu2 with h2
      rw [← h2]
      exact hscr
    constructor
    · intro r hm
      unfold monitor_target at hm
      dsimp only at hm
      rw [List.mem_append] at hm
      rcases hm with hm | hm
      · have h := (mcb_types env st t.name t.website_url "website" r hm).1
        rw [h]; decide
      · unfold monitor_target_tail at hm
        dsimp only at hm
        rw [List.mem_append, List.mem_append] at hm
        rcases hm with (hm | hm) | hm
        · rcases ocb_skip_results env _ t.name t.changelog_url "changelog" hskip with ⟨hres, _⟩
          rw [hres] at hm
          simp at hm
        · have h := (ocb_types env _ t.name t.pricing_url "pricing" r hm).1
          rw [h]; decide
        · have h := (blog_types env t.name t.rss_feeds r hm).1
          rw [h]; decide
    · unfold monitor_target
      dsimp only
      unfold monitor_target_tail
      dsimp only
      rw [ocb_store_ne env _ t.name t.pricing_url "pricing" _
            (key_ne_changelog_pricing t.name t.name)]
      rcases ocb_skip_results env _ t.name t.changelog_url "changelog" hskip with ⟨_, hst⟩
      rw [hst]
      exact mcb_store_ne env st t.name t.website_url "website" _
        (Ne.symm (key_ne_website_changelog t.name t.name))
  · intro u hu hscr
    have hskip : ∀ u2, t.pricing_url = some u2 → scrape_website_content env u2 = "" := by
      intro u2 hu2
      rw [hu] at hu2
      injection hu2 with h2
      rw [← h2]
      exact hscr
    constructor
    · intro r hm
      unfold monitor_target at hm
      dsimp only at hm
      rw [List.mem_append] at hm
      rcases hm with hm | hm
      · have h := (mcb_types env st t.name t.website_url "website" r hm).1
        rw [h]; decide
      · unfold monitor_target_tail at hm
        dsimp only at hm
        rw [List.mem_append, List.mem_append] at hm
        rcases hm with (hm | hm) | hm
        · have h := (ocb_types env _ t.name t.changelog_url "changelog" r hm).1
          rw [h]; decide
        · rcases ocb_skip_results env _ t.name t.pricing_url "pricing" hskip with ⟨hres, _⟩
          rw [hres] at hm
          simp at hm
        · have h := (blog_types env t.name t.rss_feeds r hm).1
          rw [h]; decide
    · unfold monitor_target
      dsimp only
      unfold monitor_target_tail
      dsimp only
      rcases ocb_skip_results env _ t.name t.pricing_url "pricing" hskip with ⟨_, hst⟩
      rw [hst]
      rw [ocb_store_ne env _ t.name t.changelog_url "changelog" _
            (Ne.symm (key_ne_changelog_pricing t.name t.name))]
      exact mcb_store_ne env st t.name t.website_url "website" _
        (Ne.symm (key_ne_website_pricing t.name t.name))

/-- C10 witness: the website half applied to the environment whose fetch
fails, at the empty prior store. -/
theorem failed_fetch_preserves_history_witness :
    (∀ r ∈ (monitor_target envFetchDown [] targetSimple).1, r.content_type ≠ "website") ∧
    lookupStore (monitor_target envFetchDown [] targetSimple).2.1
        (targetSimple.name ++ "_" ++ "website") =
      lookupStore [] (targetSimple.name ++ "_" ++ "website") :=
  (failed_fetch_preserves_history envFetchDown [] targetSimple).1 rfl

theorem mt_establishes (env : Env) (st : Store) (t : CompetitorTarget) :
    TargetAgrees env (monitor_target env st t).2.1 t := by
  refine ⟨?_, ?_, ?_⟩
  · intro hne
    unfold monitor_target
    dsimp only
    rw [mtail_store_ne env _ t _ (key_ne_website_changelog t.name t.name)
          (key_ne_website_pricing t.name t.name),
        mcb_store_self env st t.name t.website_url "website" hne]
    rfl
  · intro u hu hune hne
    unfold monitor_target
    dsimp only
    unfold monitor_target_tail
    dsimp only
    rw [ocb_store_ne env _ t.name t.pricing_url "pricing" _
          (key_ne_changelog_pricing t.name t.name)]
    rw [hu, optional_channel_block_some, if_pos hune]
    rw [mcb_store_self env _ t.name u "changelog" hne]
    rfl
  · intro u hu hune hne
    unfold monitor_target
    dsimp only
    unfold monitor_target_tail
    dsimp only
    rw [hu, optional_channel_block_some, if_pos hune]
    rw [mcb_store_self env _ t.name u "pricing" hne]
    rfl

theorem mt_agrees_frame (env : Env) (st : Store) (t t2 : CompetitorTarget)
    (hname : t2.name ≠ t.name) (h : TargetAgrees env st t) :
    TargetAgrees env (monitor_target env st t2).2.1 t := by
  obtain ⟨h1, h2, h3⟩ := h
  refine ⟨?_, ?_, ?_⟩
  · intro hne
    rw [mt_store_ne env st t2 _ (key_ne_of_name_ne "website" (Ne.symm hname))
          (key_ne_website_changelog t.name t2.name) (key_ne_website_pricing t.name t2.name)]
    exact h1 hne
  · intro u hu hune hne
    rw [mt_store_ne env st t2 _ (Ne.symm (key_ne_website_changelog t2.name t.name))
          (key_ne_of_name_ne "changelog" (Ne.symm hname))
          (key_ne_changelog_pricing t.name t2.name)]
    exact h2 u hu hune hne
  · intro u hu hune hne
    rw [mt_store_ne env st t2 _ (Ne.symm (key_ne_website_pricing t2.name t.name))
          (Ne.symm (key_ne_changelog_pricing t2.name t.name))
          (key_ne_of_name_ne "pricing" (Ne.symm hname))]
    exact h3 u hu hune hne

theorem cycle_agrees_frame (env : Env) (t : CompetitorTarget)
    (targets : List CompetitorTarget) (hnames : ∀ t2 ∈ targets, t2.name ≠ t.name) :
    ∀ st, TargetAgrees env st t → TargetAgrees env (cycle_body env st targets).2.1 t := by
  induction targets with
  | nil => intro st h; exact h
  | cons t2 rest ih =>
      intro st h
      unfold cycle_body
      dsimp only
      exact ih (fun x hx => hnames x (List.mem_cons_of_mem _ hx)) _
        (mt_agrees_frame env st t t2 (hnames t2 (List.mem_cons_self _ _)) h)

theorem cycle_establishes (env : Env) :
    ∀ (targets : List CompetitorTarget), (targets.map CompetitorTarget.name).Nodup →
      ∀ t ∈ targets, ∀ st, TargetAgrees env (cycle_body env st targets).2.1 t := by
  intro targets
  induction targets with
  | nil =>
      intro _ t ht
      simp at ht
  | cons t2 rest ih =>
      intro hnodup t ht st
      rw [List.map_cons, List.nodup_cons] at hnodup
      rcases List.mem_cons.mp ht with he | hmem
      · subst he
        unfold cycle_body
        dsimp only
        refine cycle_agrees_frame env t rest ?_ _ (mt_establishes env st t)
        intro x hx hxe
        exact hnodup.1 (hxe ▸ List.mem_map_of_mem CompetitorTarget.name hx)
      · unfold cycle_body
        dsimp only
        exact ih hnodup.2 t hmem _

theorem scrape_congr (env1 env2 : Env) (h : env1.fetch = env2.fetch) :
    scrape_website_content env1 = scrape_website_content env2 := by
  funext url
  unfold scrape_website_content
  rw [h]

theorem agrees_congr (env1 env2 : Env) (st : Store) (t : CompetitorTarget)
    (h : env1.fetch = env2.fetch) (ha : TargetAgrees env1 st t) : TargetAgrees env2 st t := by
  have hs := scrape_congr env1 env2 h
  obtain ⟨h1, h2, h3⟩ := ha
  refine ⟨?_, ?_, ?_⟩ <;> rw [← hs]
  · exact h1
  · exact h2
  · exact h3

theorem mt_no_changes (env : Env) (st : Store) (t : CompetitorTarget)
    (h : TargetAgrees env st t) :
    (∀ r ∈ (monitor_target env st t).1, r.detected_changes = []) ∧
    (∀ cp, Event.aiChangeCall cp ∉ (monitor_target env st t).2.2) := by
  obtain ⟨h1, h2, h3⟩ := h
  have hw := mcb_no_changes env st t.name t.website_url "website" h1
  have hkc : lookupStore (monitor_channel_block env st t.name t.website_url "website").2.1
      (t.name ++ "_" ++ "changelog") = lookupStore st (t.name ++ "_" ++ "changelog") :=
    mcb_store_ne env st t.name t.website_url "website" _
      (Ne.symm (key_ne_website_changelog t.name t.name))
  have hc := ocb_no_changes env (monitor_channel_block env st t.name t.website_url "website").2.1
    t.name t.changelog_url "changelog"
    (by
      intro u hu hune hne
      rw [hkc]
      exact h2 u hu hune hne)
  have hkp : lookupStore (optional_channel_block env
      (monitor_channel_block env st t.name t.website_url "website").2.1
      t.name t.changelog_url "changelog").2.1 (t.name ++ "_" ++ "pricing") =
      lookupStore st (t.name ++ "_" ++ "pricing") := by
    rw [ocb_store_ne env _ t.name t.changelog_url "changelog" _
          (Ne.symm (key_ne_changelog_pricing t.name t.name))]
    exact mcb_store_ne env st t.name t.website_url "website" _
      (Ne.symm (key_ne_website_pricing t.name t.name))
  have hp := ocb_no_changes env (optional_channel_block env
      (monitor_channel_block env st t.name t.website_url "website").2.1
      t.name t.changelog_url "changelog").2.1
    t.name t.pricing_url "pricing"
    (by
      intro u hu hune hne
      rw [hkp]
      exact h3 u hu hune hne)
  have hb := blog_no_changes env t.name t.rss_feeds
  constructor
  · intro r hm
    unfold monitor_target at hm
    dsimp only at hm
    rw [List.mem_append] at hm
    rcases hm with hm | hm
    · exact hw.1 r hm
    · unfold monitor_target_tail at hm
      dsimp only at hm
      rw [List.mem_append, List.mem_append] at hm
      rcases hm with (hm | hm) | hm
      · exact hc.1 r hm
      · exact hp.1 r hm
      · exact hb.1 r hm
  · intro cp hm
    unfold monitor_target at hm
    dsimp only at hm
    rw [List.mem_append] at hm
    rcases hm with hm | hm
    · exact hw.2 cp hm
    · unfold monitor_target_tail at hm
      dsimp only at hm
      rw [List.mem_append, List.mem_append] at hm
      rcases hm with (hm | hm) | hm
      · exact hc.2 cp hm
      · exact hp.2 cp hm
      · exact hb.2 cp hm

theorem cycle_no_changes (env : Env) :
    ∀ (targets : List CompetitorTarget), (targets.map CompetitorTarget.name).Nodup →
      ∀ st, (∀ t ∈ targets, TargetAgrees env st t) →
      (∀ r ∈ (cycle_body env st targets).1, r.detected_changes = []) ∧
      (∀ cp, Event.aiChangeCall cp ∉ (cycle_body env st targets).2.2) := by
  intro targets
  induction targets with
  | nil =>
      intro _ st _
      exact ⟨by intro r hm; simp [cycle_body] at hm,
             by intro cp hm; simp [cycle_body] at hm⟩
  | cons t2 rest ih =>
      intro hnodup st hagree
      rw [List.map_cons, List.nodup_cons] at hnodup
      have hhead := mt_no_changes env st t2 (hagree t2 (List.mem_cons_self _ _))
      have hrest := ih hnodup.2 (monitor_target env st t2).2.1 (fun x hx =>
        mt_agrees_frame env st x t2
          (fun he => hnodup.1 (he ▸ List.mem_map_of_mem CompetitorTarget.name hx))
          (hagree x (List.mem_cons_of_mem _ hx)))
      constructor
      · intro r hm
        unfold cycle_body at hm
        dsimp only at hm
        rw [List.mem_append] at hm
        rcases hm with hm | hm
        · exact hhead.1 r hm
        · exact hrest.1 r hm
      · intro cp hm
        unfold cycle_body at hm
        dsimp only at hm
        rw [List.mem_append] at hm
        rcases hm with hm | hm
        · exact hhead.2 cp hm
        · exact hrest.2 cp hm

/-- C5: if two consecutive cycles fetch identical source content (same fetch
oracle, whatever the analysis oracles do), then on the second cycle tier-1
change detection never fires: every result of the second cycle has an empty
detected-changes list, and no tier-2 comparison call occurs in its trace.
Target names are pairwise distinct, as the spec requires of the target
store. -/
theorem second_cycle_no_changes :
    ∀ (env1 env2 : Env) (st : Store) (targets : List CompetitorTarget),
      env1.fetch = env2.fetch →
      (targets.map CompetitorTarget.name).Nodup →
      (∀ r ∈ (run_monitoring_cycle env2
          (run_monitoring_cycle env1 st targets).2.1 targets).1,
        r.detected_changes = []) ∧
      (∀ cp, Event.aiChangeCall cp ∉ (run_monitoring_cycle env2
          (run_monitoring_cycle env1 st targets).2.1 targets).2.2) := by
  intro env1 env2 st targets hfetch hnodup
  have hagree : ∀ t ∈ targets,
      TargetAgrees env2 (run_monitoring_cycle env1 st targets).2.1 t := by
    intro t ht
    exact agrees_congr env1 env2 _ t hfetch (cycle_establishes env1 targets hnodup t ht st)
  have h := cycle_no_changes env2 targets hnodup
    (run_monitoring_cycle env1 st targets).2.1 hagree
  constructor
  · intro r hm
    exact h.1 r hm
  · intro cp hm
    rw [show (run_monitoring_cycle env2 (run_monitoring_cycle env1 st targets).2.1
          targets).2.2 =
        (cycle_body env2 (run_monitoring_cycle env1 st targets).2.1 targets).2.2 ++
          [Event.commit] from rfl,
      List.mem_append] at hm
    rcases hm with hm | hm
    · exact h.2 cp hm
    · simp at hm

/-- C5 witness: two cycles over the same concrete environment and one
target. -/
theorem second_cycle_no_changes_witness :
    (∀ r ∈ (run_monitoring_cycle envAiUp
        (run_monitoring_cycle envAiUp [] [targetSimple]).2.1 [targetSimple]).1,
      r.detected_changes = []) ∧
    (∀ cp, Event.aiChangeCall cp ∉ (run_monitoring_cycle envAiUp
        (run_monitoring_cycle envAiUp [] [targetSimple]).2.1 [targetSimple]).2.2) :=
  second_cycle_no_changes envAiUp envAiUp [] [targetSimple] rfl (by decide)

/-! ## FeedFetcher lemmas (C8, C9) -/

theorem foldl_append_eq (env : Env) (urls : List String) :
    ∀ init : List FeedEntry,
      urls.foldl (fun acc feed_url => acc ++ entriesOfFeed env feed_url) init =
        init ++ (urls.map (entriesOfFeed env)).flatten := by
  induction urls with
  | nil => intro init; simp
  | cons u rest ih =>
      intro init
      simp only [List.foldl_cons, List.map_cons, List.flatten_cons, ih, List.append_assoc]

theorem mem_entriesOfFeed (env : Env) (feed_url : String) (r : FeedEntry) :
    r ∈ entriesOfFeed env feed_url ↔
      ∃ es, env.feedParse feed_url = Except.ok es ∧
        ∃ e ∈ es, ∃ d, e.published_parsed = some d ∧
          env.nowT - 7 * 86400 ≤ d ∧ r = retainEntry feed_url e d := by
  unfold entriesOfFeed
  split
  · rename_i e heq
    simp [heq]
  · rename_i es heq
    rw [List.mem_filterMap]
    constructor
    · rintro ⟨e, he, hsome⟩
      refine ⟨es, heq, e, he, ?_⟩
      cases hpd : e.published_parsed with
      | none =>
          rw [hpd] at hsome
          simp [dateFilter] at hsome
      | some d =>
          rw [hpd] at hsome
          rw [show dateFilter env feed_url e (some d) =
              (if env.nowT - 7 * 86400 ≤ d then some (retainEntry feed_url e d) else none)
            from rfl] at hsome
          by_cases hin : env.nowT - 7 * 86400 ≤ d
          · rw [if_pos hin] at hsome
            exact ⟨d, rfl, hin, (Option.some.inj hsome).symm⟩
          · rw [if_neg hin] at hsome
            simp at hsome
    · rintro ⟨es2, hes2, e, he, d, hpd, hin, hr⟩
      rw [heq] at hes2
      injection hes2 with hes2
      subst hes2
      refine ⟨e, he, ?_⟩
      rw [hpd]
      rw [show dateFilter env feed_url e (some d) =
          (if env.nowT - 7 * 86400 ≤ d then some (retainEntry feed_url e d) else none)
        from rfl]
      rw [if_pos hin, hr]

theorem scrape_rss_perm (env : Env) (urls : List String) :
    List.Perm (scrape_rss_feeds env urls) ((urls.map (entriesOfFeed env)).flatten) := by
  unfold scrape_rss_feeds
  rw [foldl_append_eq env urls []]
  exact List.mergeSort_perm _ _

theorem mem_scrape_rss (env : Env) (urls : List String) (r : FeedEntry) :
    r ∈ scrape_rss_feeds env urls ↔ ∃ u ∈ urls, r ∈ entriesOfFeed env u := by
  rw [(scrape_rss_perm env urls).mem_iff, List.mem_flatten]
  constructor
  · rintro ⟨l, hl, hr⟩
    rw [List.mem_map] at hl
    obtain ⟨u, hu, rfl⟩ := hl
    exact ⟨u, hu, hr⟩
  · rintro ⟨u, hu, hr⟩
    exact ⟨entriesOfFeed env u, List.mem_map_of_mem _ hu, hr⟩

theorem scrape_rss_sorted (env : Env) (urls : List String) :
    (scrape_rss_feeds env urls).Pairwise (fun a b => b.published ≤ a.published) := by
  unfold scrape_rss_feeds
  have htr : ∀ a b c : FeedEntry, decide (b.published ≤ a.published) →
      decide (c.published ≤ b.published) → decide (c.published ≤ a.published) := by
    intro a b c h1 h2
    simp only [decide_eq_true_eq] at h1 h2 ⊢
    exact le_trans h2 h1
  have htot : ∀ a b : FeedEntry,
      decide (b.published ≤ a.published) || decide (a.published ≤ b.published) := by
    intro a b
    simp only [Bool.or_eq_true, decide_eq_true_eq]
    exact le_total b.published a.published
  have h := List.sorted_mergeSort htr htot
    (urls.foldl (fun acc feed_url => acc ++ entriesOfFeed env feed_url) [])
  exact h.imp (fun hab => of_decide_eq_true hab)

theorem entriesOfFeed_error (env : Env) (u e : String)
    (h : env.feedParse u = Except.error e) : entriesOfFeed env u = [] := by
  unfold entriesOfFeed
  split
  · rfl
  · rename_i es heq
    rw [h] at heq
    simp at heq

theorem flatten_nil_of_all (l : List String) (f : String → List FeedEntry)
    (h : ∀ u ∈ l, f u = []) : (l.map f).flatten = [] := by
  induction l with
  | nil => rfl
  | cons u rest ih =>
      rw [List.map_cons, List.flatten_cons, h u (List.mem_cons_self _ _),
        ih (fun x hx => h x (List.mem_cons_of_mem _ hx)), List.nil_append]

theorem scrape_rss_all_error (env : Env) (feeds : List String)
    (h : ∀ u ∈ feeds, ∃ e, env.feedParse u = Except.error e) :
    scrape_rss_feeds env feeds = [] := by
  have hfl : (feeds.map (entriesOfFeed env)).flatten = [] :=
    flatten_nil_of_all feeds (entriesOfFeed env) (fun u hu =>
      (h u hu).elim (fun e he => entriesOfFeed_error env u e he))
  have hp := scrape_rss_perm env feeds
  rw [hfl] at hp
  exact hp.eq_nil

theorem mt_skip_changelog (env : Env) (st : Store) (t : CompetitorTarget)
    (hskip : ∀ u2, t.changelog_url = some u2 → scrape_website_content env u2 = "") :
    (∀ r ∈ (monitor_target env st t).1, r.content_type ≠ "changelog") ∧
    lookupStore (monitor_target env st t).2.1 (t.name ++ "_" ++ "changelog") =
      lookupStore st (t.name ++ "_" ++ "changelog") ∧
    (monitor_target env st t).1 =
      (monitor_channel_block env st t.name t.website_url "website").1 ++
      ((optional_channel_block env
          (monitor_channel_block env st t.name t.website_url "website").2.1
          t.name t.pricing_url "pricing").1 ++
        (monitor_blog_block env t.name t.rss_feeds).1) := by
  rcases ocb_skip_results env
      (monitor_channel_block env st t.name t.website_url "website").2.1
      t.name t.changelog_url "changelog" hskip with ⟨hres, hst⟩
  refine ⟨?_, ?_, ?_⟩
  · intro r hm
    unfold monitor_target at hm
    dsimp only at hm
    rw [List.mem_append] at hm
    rcases hm with hm | hm
    · rw [(mcb_types env st t.name t.website_url "website" r hm).1]
      decide
    · unfold monitor_target_tail at hm
      dsimp only at hm
      rw [List.mem_append, List.mem_append] at hm
      rcases hm with (hm | hm) | hm
      · rw [hres] at hm
        simp at hm
      · rw [(ocb_types env _ t.name t.pricing_url "pricing" r hm).1]
        decide
      · rw [(blog_types env t.name t.rss_feeds r hm).1]
        decide
  · unfold monitor_target
    dsimp only
    unfold monitor_target_tail
    dsimp only
    rw [ocb_store_ne env _ t.name t.pricing_url "pricing" _
          (key_ne_changelog_pricing t.name t.name)]
    rw [hst]
    exact mcb_store_ne env st t.name t.website_url "website" _
      (Ne.symm (key_ne_website_changelog t.name t.name))
  · unfold monitor_target
    dsimp only
    unfold monitor_target_tail
    dsimp only
    rw [hres, hst]
    rfl

theorem mt_skip_pricing (env : Env) (st : Store) (t : CompetitorTarget)
    (hskip : ∀ u2, t.pricing_url = some u2 → scrape_website_content env u2 = "") :
    (∀ r ∈ (monitor_target env st t).1, r.content_type ≠ "pricing") ∧
    lookupStore (monitor_target env st t).2.1 (t.name ++ "_" ++ "pricing") =
      lookupStore st (t.name ++ "_" ++ "pricing") ∧
    (monitor_target env st t).1 =
      (monitor_channel_block env st t.name t.website_url "website").1 ++
      ((optional_channel_block env
          (monitor_channel_block env st t.name t.website_url "website").2.1
          t.name t.changelog_url "changelog").1 ++
        (monitor_blog_block env t.name t.rss_feeds).1) := by
  rcases ocb_skip_results env
      (optional_channel_block env
        (monitor_channel_block env st t.name t.website_url "website").2.1
        t.name t.changelog_url "changelog").2.1
      t.name t.pricing_url "pricing" hskip with ⟨hres, hst⟩
  refine ⟨?_, ?_, ?_⟩
  · intro r hm
    unfold monitor_target at hm
    dsimp only at hm
    rw [List.mem_append] at hm
    rcases hm with hm | hm
    · rw [(mcb_types env st t.name t.website_url "website" r hm).1]
      decide
    · unfold monitor_target_tail at hm
      dsimp only at hm
      rw [List.mem_append, List.mem_append] at hm
      rcases hm with (hm | hm) | hm
      · rw [(ocb_types env _ t.name t.changelog_url "changelog" r hm).1]
        decide
      · rw [hres] at hm
        simp at hm
      · rw [(blog_types env t.name t.rss_feeds r hm).1]
        decide
  · unfold monitor_target
    dsimp only
    unfold monitor_target_tail
    dsimp only
    rw [hst]
    rw [ocb_store_ne env _ t.name t.changelog_url "changelog" _
          (Ne.symm (key_ne_changelog_pricing t.name t.name))]
    exact mcb_store_ne env st t.name t.website_url "website" _
      (Ne.symm (key_ne_website_pricing t.name t.name))
  · unfold monitor_target
    dsimp only
    unfold monitor_target_tail
    dsimp only
    rw [hres]
    simp only [List.append_nil]

theorem mt_blog_absent (env : Env) (st : Store) (t : CompetitorTarget)
    (feeds : List String) (hf : t.rss_feeds = some feeds)
    (h : ∀ u ∈ feeds, ∃ e, env.feedParse u = Except.error e) :
    ∀ r ∈ (monitor_target env st t).1, r.content_type ≠ "blog" := by
  have hempty : scrape_rss_feeds env feeds = [] := scrape_rss_all_error env feeds h
  intro r hm
  unfold monitor_target at hm
  dsimp only at hm
  rw [List.mem_append] at hm
  rcases hm with hm | hm
  · rw [(mcb_types env st t.name t.website_url "website" r hm).1]
    decide
  · unfold monitor_target_tail at hm
    dsimp only at hm
    rw [List.mem_append, List.mem_append] at hm
    rcases hm with (hm | hm) | hm
    · rw [(ocb_types env _ t.name t.changelog_url "changelog" r hm).1]
      decide
    · rw [(ocb_types env _ t.name t.pricing_url "pricing" r hm).1]
      decide
    · rw [hf, monitor_blog_block_some] at hm
      by_cases hfe : feeds = []
      · rw [if_pos hfe] at hm
        simp at hm
      · rw [if_neg hfe] at hm
        unfold blog_payload at hm
        rw [if_pos hempty] at hm
        simp at hm

/-- C2 amended: for every target and channel, errors are isolated per
(target, channel) pair, but only fetch and feed-parse errors yield zero
results.  (1)-(3): a fetch error for the website, changelog or pricing
channel is caught locally (the scrape returns empty), yields zero results
of that channel, leaves the HistoricalStore entry for that (target,
channel) key untouched, and the remaining channels of the target are
processed exactly as if the failed channel had produced nothing.  (4)-(5):
a feed-level parse error is caught locally and only that feed contributes
nothing; when every configured feed of the blog channel fails to parse,
the blog channel yields zero results (and the blog block never writes the
store).  (6): only the three fetch-channel keys of the target can change,
so a failing stage never corrupts other entries.  (7): an ANALYSIS error,
by contrast, still yields exactly one result for its channel — with
sentinel summary "AI analysis failed" and an empty change list — and the
snapshot is still staged.  (8): the orchestrator always continues with
the remaining targets; it observes only the produced results. -/
theorem channel_failure_isolation :
    ∀ (env : Env) (st : Store) (t : CompetitorTarget),
      (∀ e, env.fetch t.website_url = Except.error e →
        (∀ r ∈ (monitor_target env st t).1, r.content_type ≠ "website") ∧
        lookupStore (monitor_target env st t).2.1 (t.name ++ "_" ++ "website") =
          lookupStore st (t.name ++ "_" ++ "website") ∧
        (monitor_target env st t).1 = (monitor_target_tail env st t).1 ∧
        (monitor_target env st t).2.1 = (monitor_target_tail env st t).2.1) ∧
      (∀ u e, t.changelog_url = some u → env.fetch u = Except.error e →
        (∀ r ∈ (monitor_target env st t).1, r.content_type ≠ "changelog") ∧
        lookupStore (monitor_target env st t).2.1 (t.name ++ "_" ++ "changelog") =
          lookupStore st (t.name ++ "_" ++ "changelog") ∧
        (monitor_target env st t).1 =
          (monitor_channel_block env st t.name t.website_url "website").1 ++
          ((optional_channel_block env
              (monitor_channel_block env st t.name t.website_url "website").2.1
              t.name t.pricing_url "pricing").1 ++
            (monitor_blog_block env t.name t.rss_feeds).1)) ∧
      (∀ u e, t.pricing_url = some u → env.fetch u = Except.error e →
        (∀ r ∈ (monitor_target env st t).1, r.content_type ≠ "pricing") ∧
        lookupStore (monitor_target env st t).2.1 (t.name ++ "_" ++ "pricing") =
          lookupStore st (t.name ++ "_" ++ "pricing") ∧
        (monitor_target env st t).1 =
          (monitor_channel_block env st t.name t.website_url "website").1 ++
          ((optional_channel_block env
              (monitor_channel_block env st t.name t.website_url "website").2.1
              t.name t.changelog_url "changelog").1 ++
            (monitor_blog_block env t.name t.rss_feeds).1)) ∧
      (∀ u e, env.feedParse u = Except.error e → entriesOfFeed env u = []) ∧
      (∀ feeds, t.rss_feeds = some feeds →
        (∀ u ∈ feeds, ∃ e, env.feedParse u = Except.error e) →
        ∀ r ∈ (monitor_target env st t).1, r.content_type ≠ "blog") ∧
      (∀ k, k ≠ t.name ++ "_" ++ "website" → k ≠ t.name ++ "_" ++ "changelog" →
        k ≠ t.name ++ "_" ++ "pricing" →
        lookupStore (monitor_target env st t).2.1 k = lookupStore st k) ∧
      (∀ url ty c e, scrape_website_content env url = c → c ≠ "" →
        env.aiMain (buildPrompt c ty
          (((lookupStore st (t.name ++ "_" ++ ty)).map HistEntry.content).getD "")) =
          Except.error e →
        (monitor_channel_block env st t.name url ty).1.map
          MonitoringResult.content_type = [ty] ∧
        (monitor_channel_block env st t.name url ty).1.map
          MonitoringResult.ai_summary = ["AI analysis failed"] ∧
        (monitor_channel_block env st t.name url ty).1.map
          MonitoringResult.detected_changes = [[]] ∧
        (monitor_channel_block env st t.name url ty).2.1 =
          setStore st (t.name ++ "_" ++ ty)
            { content := c, hash := toString (pyHashStr env.seed0 env.seed1 c),
              last_updated := env.now }) ∧
      (∀ rest, (cycle_body env st (t :: rest)).1 =
        (monitor_target env st t).1 ++
          (cycle_body env (monitor_target env st t).2.1 rest).1) := by
  intro env st t
  refine ⟨?_, ?_, ?_, ?_, ?_, ?_, ?_, ?_⟩
  · intro e he
    have hs := scrape_of_error env t.website_url e he
    rw [mt_website_skip env st t hs]
    refine ⟨?_, ?_, rfl, rfl⟩
    · intro r hm
      have h := mtail_types env st t r hm
      rcases h.1 with h | h | h <;> rw [h] <;> decide
    · exact mtail_store_ne env st t _ (key_ne_website_changelog t.name t.name)
        (key_ne_website_pricing t.name t.name)
  · intro u e hu he
    refine mt_skip_changelog env st t ?_
    intro u2 hu2
    rw [hu] at hu2
    injection hu2 with h2
    rw [← h2]
    exact scrape_of_error env u e he
  · intro u e hu he
    refine mt_skip_pricing env st t ?_
    intro u2 hu2
    rw [hu] at hu2
    injection hu2 with h2
    rw [← h2]
    exact scrape_of_error env u e he
  · intro u e he
    exact entriesOfFeed_error env u e he
  · intro feeds hf hall
    exact mt_blog_absent env st t feeds hf hall
  · intro k h0 h1 h2
    exact mt_store_ne env st t k h0 h1 h2
  · intro url ty c e hsc hc ha
    have h := mcb_analysis_error env st t.name url ty c e hsc hc ha
    refine ⟨?_, ?_, ?_, h.2⟩ <;> simp [h.1]
  · intro rest
    rfl

/-- C2 amended, witness: the fetch-error part applied to a concrete
environment whose fetch fails, and the analysis-error part applied to a
concrete environment whose summarization fails. -/
theorem channel_failure_isolation_witness :
    ((∀ r ∈ (monitor_target envFetchDown [] targetSimple).1, r.content_type ≠ "website") ∧
      lookupStore (monitor_target envFetchDown [] targetSimple).2.1
          (targetSimple.name ++ "_" ++ "website") =
        lookupStore [] (targetSimple.name ++ "_" ++ "website") ∧
      (monitor_target envFetchDown [] targetSimple).1 =
        (monitor_target_tail envFetchDown [] targetSimple).1 ∧
      (monitor_target envFetchDown [] targetSimple).2.1 =
        (monitor_target_tail envFetchDown [] targetSimple).2.1) ∧
    ((monitor_target envFetchDown [] targetSimple).1.map MonitoringResult.content_type =
        ([] : List String)) ∧
    ((monitor_channel_block envAiDown [] targetSimple.name "https://t.example"
        "website").1.map MonitoringResult.ai_summary = ["AI analysis failed"]) ∧
    ((monitor_channel_block envAiDown [] targetSimple.name "https://t.example"
        "website").1.map MonitoringResult.detected_changes = [[]]) := by
  have hA := (channel_failure_isolation envFetchDown [] targetSimple).1 "down" rfl
  have hG := (channel_failure_isolation envAiDown []
    targetSimple).2.2.2.2.2.2.1 "https://t.example" "website" "hello" "boom" rfl
    (by decide) rfl
  exact ⟨hA, by rw [hA.2.2.1]; rfl, hG.2.1, hG.2.2.1⟩

/-- C8 counterexample: the claim restricts the returned entries to those
whose publish date lies within the trailing 7-day window BEFORE cycle time.
The code only enforces the lower bound `entry_date >= one_week_ago`: an
entry published 696800 seconds AFTER cycle time is retained, although its
date does not lie within the window (it is not ≤ cycle time). -/
theorem rss_future_entry_kept_cex :
    (scrape_rss_feeds envRssFuture ["feed"]).map FeedEntry.published = [1000696800] ∧
    ¬ ((1000696800 : Int) ≤ envRssFuture.nowT) := by
  constructor
  · have hp := scrape_rss_perm envRssFuture ["feed"]
    have he : ((["feed"] : List String).map (entriesOfFeed envRssFuture)).flatten =
        [retainEntry "feed"
          { title := "t", summary := none, link := "l", published_parsed := some 1000696800 }
          1000696800] := rfl
    rw [he] at hp
    rw [List.perm_singleton.mp hp]
    rfl
  · decide

/-- C8 amended: the feed fetcher returns exactly the entries, merged over
all feeds, whose publish date parses and is at least cycle time minus 7
days — with no upper bound, so future-dated entries are retained as well —
sorted by publish time in descending order. -/
theorem rss_window_merge_sorted :
    ∀ (env : Env) (feed_urls : List String),
      (scrape_rss_feeds env feed_urls).Pairwise (fun a b => b.published ≤ a.published) ∧
      ∀ r, r ∈ scrape_rss_feeds env feed_urls ↔
        ∃ u, u ∈ feed_urls ∧ ∃ es, env.feedParse u = Except.ok es ∧
          ∃ e, e ∈ es ∧ ∃ d, e.published_parsed = some d ∧
            env.nowT - 7 * 86400 ≤ d ∧ r = retainEntry u e d := by
  intro env urls
  refine ⟨scrape_rss_sorted env urls, ?_⟩
  intro r
  rw [mem_scrape_rss env urls r]
  constructor
  · rintro ⟨u, hu, hr⟩
    rw [mem_entriesOfFeed] at hr
    obtain ⟨es, hes, e, he, d, h1, h2, h3⟩ := hr
    exact ⟨u, hu, es, hes, e, he, d, h1, h2, h3⟩
  · rintro ⟨u, hu, es, hes, e, he, d, h1, h2, h3⟩
    exact ⟨u, hu, (mem_entriesOfFeed env u r).mpr ⟨es, hes, e, he, d, h1, h2, h3⟩⟩

/-- C9: an individual entry whose publish date cannot be parsed is skipped:
every returned entry stems from an entry with a parsed date, so unparsable
entries contribute nothing to the merged result; and every other valid
in-window entry of the same feed is still retained. -/
theorem rss_unparsable_entry_skipped :
    ∀ (env : Env) (feed_urls : List String) (u : String) (es : List RawEntry),
      u ∈ feed_urls → env.feedParse u = Except.ok es →
      (∀ r ∈ scrape_rss_feeds env feed_urls,
        ∃ u2 es2 e d, u2 ∈ feed_urls ∧ env.feedParse u2 = Except.ok es2 ∧ e ∈ es2 ∧
          e.published_parsed = some d ∧ r = retainEntry u2 e d) ∧
      (∀ e ∈ es, ∀ d, e.published_parsed = some d → env.nowT - 7 * 86400 ≤ d →
        retainEntry u e d ∈ scrape_rss_feeds env feed_urls) := by
  intro env urls u es hu hes
  constructor
  · intro r hm
    rw [mem_scrape_rss] at hm
    obtain ⟨u2, hu2, hr⟩ := hm
    rw [mem_entriesOfFeed] at hr
    obtain ⟨es2, hes2, e, he, d, h1, h2, h3⟩ := hr
    exact ⟨u2, es2, e, d, hu2, hes2, he, h1, h3⟩
  · intro e he d hd hin
    rw [mem_scrape_rss]
    exact ⟨u, hu, (mem_entriesOfFeed env u _).mpr ⟨es, hes, e, he, d, hd, hin, rfl⟩⟩

/-- C9 witness: the theorem applied to the mixed feed. -/
theorem rss_unparsable_entry_skipped_witness :
    (∀ r ∈ scrape_rss_feeds envRssMixed ["feed"],
      ∃ u2 es2 e d, u2 ∈ (["feed"] : List String) ∧
        envRssMixed.feedParse u2 = Except.ok es2 ∧ e ∈ es2 ∧
        e.published_parsed = some d ∧ r = retainEntry u2 e d) ∧
    (∀ e ∈ [({ title := "bad", summary := none, link := "b",
                published_parsed := none } : RawEntry),
             { title := "good", summary := some "s", link := "g",
               published_parsed := some 1000000000 }],
      ∀ d, e.published_parsed = some d → envRssMixed.nowT - 7 * 86400 ≤ d →
        retainEntry "feed" e d ∈ scrape_rss_feeds envRssMixed ["feed"]) :=
  rss_unparsable_entry_skipped envRssMixed ["feed"] "feed"
    [{ title := "bad", summary := none, link := "b", published_parsed := none },
     { title := "good", summary := some "s", link := "g", published_parsed := some 1000000000 }]
    (by simp) rfl

theorem schedStep_inv (first period : Nat) (dur : Nat → Nat) (s : SchedState)
    (h : (∀ r ∈ s.runs, r.1 ≤ r.2 ∧ r.2 ≤ s.now) ∧
      s.runs.Pairwise (fun a b => a.2 ≤ b.1)) :
    (∀ r ∈ (schedStep first period dur s).runs,
      r.1 ≤ r.2 ∧ r.2 ≤ (schedStep first period dur s).now) ∧
    (schedStep first period dur s).runs.Pairwise (fun a b => a.2 ≤ b.1) := by
  unfold schedStep
  split
  · dsimp only
    constructor
    · intro r hm
      rw [List.mem_append] at hm
      rcases hm with hm | hm
      · rcases h.1 r hm with ⟨ha, hb⟩
        exact ⟨ha, by omega⟩
      · simp at hm
        subst hm
        exact ⟨by omega, by omega⟩
    · rw [List.pairwise_append]
      refine ⟨h.2, List.pairwise_singleton _ _, ?_⟩
      intro a ha b hb
      simp at hb
      subst hb
      exact (h.1 a ha).2
  · dsimp only
    constructor
    · intro r hm
      rcases h.1 r hm with ⟨ha, hb⟩
      exact ⟨ha, by omega⟩
    · exact h.2

theorem schedRun_inv (first period : Nat) (dur : Nat → Nat) (t0 : Nat) :
    ∀ n, (∀ r ∈ (schedRun first period dur t0 n).runs,
        r.1 ≤ r.2 ∧ r.2 ≤ (schedRun first period dur t0 n).now) ∧
      (schedRun first period dur t0 n).runs.Pairwise (fun a b => a.2 ≤ b.1) := by
  intro n
  induction n with
  | zero =>
      constructor
      · intro r hm
        simp [schedRun, schedInit] at hm
        subst hm
        exact ⟨Nat.le_add_right _ _, le_refl _⟩
      · simp [schedRun, schedInit]
  | succ k ih =>
      rw [schedRun, Function.iterate_succ_apply']
      exact schedStep_inv first period dur _ ih

/-- C6 amended: the scheduler never starts a second monitoring cycle while
one is Running — the polling loop is single-threaded and runs each cycle
synchronously, so in every reachable state the recorded cycle runs are
well-formed and pairwise non-overlapping in chronological order (each run
ends no later than the next begins).  However, a trigger that fires while a
cycle is in progress is NOT dropped: it is deferred, and the job runs at
the next `run_pending` after the cycle completes (see the counterexample
theorem for the deferral). -/
theorem scheduler_cycles_sequential :
    ∀ (first period : Nat) (dur : Nat → Nat) (t0 n : Nat),
      (∀ r ∈ (schedRun first period dur t0 n).runs, r.1 ≤ r.2) ∧
      (schedRun first period dur t0 n).runs.Pairwise (fun r1 r2 => r1.2 ≤ r2.1) :=
  fun first period dur t0 n =>
    ⟨fun r hm => ((schedRun_inv first period dur t0 n).1 r hm).1,
     (schedRun_inv first period dur t0 n).2⟩

/-- C6 counterexample: with the first trigger at time 100, period 10000,
startup at time 0 and every cycle taking 200 seconds, the initial report
runs over the interval (0, 200), so the trigger at time 100 fires while a
cycle is in progress; the claim says that trigger is dropped, so no further
cycle could start before the next trigger at 10100 — but the code runs a
second cycle over (200, 400): the mid-cycle trigger is deferred, not
dropped. -/
theorem scheduler_trigger_not_dropped_cex :
    (schedRun 100 10000 (fun _ => 200) 0 1).runs = [(0, 200), (200, 400)] ∧
    (0 ≤ 100 ∧ 100 < 200) ∧
    nextTrigger 100 10000 100 = 10100 ∧
    200 < 10100 := by
  refine ⟨by decide, by decide, by decide, by decide⟩
